import Mathlib

/-!
Verification development for the document persistence and grouping layer of
`examples/document_extraction/supabase_store.py`.

The Python module is shallowly embedded: the relational store is an explicit
`DB` state, every Supabase statement becomes a pure state transformation, and
Python exceptions become values of an `Except PyError` computation.  A
top-level operation runs inside one transaction: when its body raises, the
pre-state is the committed state (rollback).

Machine-level conventions of the embedding:
* Python `Decimal` values are represented exactly (`PyDec`), rationals plus
  the special values NaN and signed infinity.
* Python `float` values are represented as exact rationals plus NaN and
  signed infinity (`PyFloat`); binary rounding of finite literals is not
  modelled, which is irrelevant to the properties proved here.  `int(float)`
  truncates toward zero and raises for NaN and infinity, as in CPython.
* uuid values are natural numbers; `uuidStr` renders the canonical
  lower-case hex form used by `str(uuid)`.
* The wall clock is an abstract counter `DB.clock`; the SQL `now()` reads it.
-/

/-- Python exception classes that the embedded code can raise.  `valueError`
covers `ValueError`, `overflowError` covers `OverflowError`, and
`invalidOperation` covers `decimal.InvalidOperation`. -/
inductive PyError where
  | valueError (msg : String)
  | overflowError (msg : String)
  | invalidOperation (msg : String)
deriving DecidableEq, Repr

/-- Exception class name of an error, used to compare error categories. -/
def PyError.kind : PyError → String
  | .valueError _ => "ValueError"
  | .overflowError _ => "OverflowError"
  | .invalidOperation _ => "InvalidOperation"

/-- Message carried by an error. -/
def PyError.message : PyError → String
  | .valueError m => m
  | .overflowError m => m
  | .invalidOperation m => m

/-- Whether an error would be caught by `except ValueError`. -/
def PyError.isValueError : PyError → Bool
  | .valueError _ => true
  | _ => false

/-- Whether an error would be caught by `except InvalidOperation`. -/
def PyError.isInvalidOperation : PyError → Bool
  | .invalidOperation _ => true
  | _ => false

/-- Python float: exact finite value, infinities, or NaN. -/
inductive PyFloat where
  | finite (q : ℚ)
  | inf
  | negInf
  | nan
deriving DecidableEq, Repr

/-- Python `decimal.Decimal`: exact finite value, infinities, or NaN. -/
inductive PyDec where
  | finite (q : ℚ)
  | inf
  | negInf
  | nan
deriving DecidableEq, Repr

/-- Python `datetime.date`. -/
structure PyDate where
  year : Nat
  month : Nat
  day : Nat
deriving DecidableEq, Repr

/-- Python `datetime.datetime`; `tzOffset` is the UTC offset in minutes when
the value is timezone-aware. -/
structure PyDateTime where
  date : PyDate
  hour : Nat
  minute : Nat
  second : Nat
  microsecond : Nat
  tzOffset : Option Int
deriving DecidableEq, Repr

/-- Loosely-typed Python values flowing through the extraction payloads:
JSON-like trees plus the typed values the module handles
(`Decimal`, `date`, `datetime`, `uuid.UUID`). -/
inductive Value where
  | none
  | bool (b : Bool)
  | int (n : Int)
  | float (f : PyFloat)
  | str (s : String)
  | list (xs : List Value)
  | dict (fields : List (String × Value))
  | decimal (d : PyDec)
  | date (d : PyDate)
  | datetime (dt : PyDateTime)
  | uuid (n : Nat)

-- String helpers

/-- Python `str.strip()` restricted to whitespace (the only use in the
module). -/
def pyStrip (s : String) : String :=
  ((s.toList.dropWhile Char.isWhitespace).reverse.dropWhile Char.isWhitespace).reverse.asString

/-- ASCII lower-casing of one character; the classification labels compared
in the module are ASCII. -/
def lowerChar (c : Char) : Char :=
  if c.toNat ≥ 65 ∧ c.toNat ≤ 90 then Char.ofNat (c.toNat + 32) else c

/-- Python `str.lower()` on the ASCII range. -/
def pyLower (s : String) : String :=
  (s.toList.map lowerChar).asString

/-- Decimal digit test. -/
def isDigitChar (c : Char) : Bool :=
  c.toNat ≥ 48 && c.toNat ≤ 57

/-- Numeric value of a decimal digit character. -/
def digitVal (c : Char) : Nat := c.toNat - 48

/-- Value of a list of decimal digit characters. -/
def digitsToNat (cs : List Char) : Nat :=
  cs.foldl (fun acc c => acc * 10 + digitVal c) 0

/-- Hex digit test (both cases). -/
def isHexChar (c : Char) : Bool :=
  isDigitChar c || (c.toNat ≥ 97 && c.toNat ≤ 102) || (c.toNat ≥ 65 && c.toNat ≤ 70)

/-- Numeric value of a hex digit character. -/
def hexVal (c : Char) : Nat :=
  if isDigitChar c then c.toNat - 48
  else if c.toNat ≥ 97 then c.toNat - 87
  else c.toNat - 55

/-- Lower-case hex digit character for a value below 16. -/
def hexChar (n : Nat) : Char :=
  if n < 10 then Char.ofNat (48 + n) else Char.ofNat (87 + n)

/-- Fixed-width lower-case hex rendering. -/
def toHexPad : Nat → Nat → List Char
  | 0, _ => []
  | w + 1, n => toHexPad w (n / 16) ++ [hexChar (n % 16)]

/-- Canonical string form of a uuid (`str(uuid.UUID)`): 32 lower-case hex
digits in 8-4-4-4-12 groups. -/
def uuidStr (n : Nat) : String :=
  let h := toHexPad 32 (n % 2 ^ 128)
  (h.take 8 ++ ['-'] ++ (h.drop 8).take 4 ++ ['-'] ++ (h.drop 12).take 4 ++ ['-']
    ++ (h.drop 16).take 4 ++ ['-'] ++ h.drop 20).asString

/-- Model of `uuid.UUID(str)`: dashes are ignored and exactly 32 hex digits
are required, otherwise `ValueError` (the urn/brace forms accepted by CPython
are not used by the module and are not modelled). -/
def uuidFromStr (s : String) : Except PyError Nat :=
  let cs := s.toList.filter (fun c => c ≠ '-')
  if cs.length = 32 && cs.all isHexChar then
    .ok (cs.foldl (fun acc c => acc * 16 + hexVal c) 0)
  else
    .error (.valueError ("badly formed hexadecimal UUID string: " ++ s))

/-- Zero-padded two-digit rendering. -/
def pad2 (n : Nat) : String :=
  if n < 10 then "0" ++ toString n else toString n

/-- Zero-padded four-digit rendering. -/
def pad4 (n : Nat) : String :=
  if n < 10 then "000" ++ toString n
  else if n < 100 then "00" ++ toString n
  else if n < 1000 then "0" ++ toString n
  else toString n

/-- Python `date.isoformat()`. -/
def isoDate (d : PyDate) : String :=
  pad4 d.year ++ "-" ++ pad2 d.month ++ "-" ++ pad2 d.day

/-- Rendering of a UTC offset in minutes as `+HH:MM` / `-HH:MM`. -/
def isoOffset (off : Int) : String :=
  let sign := if off < 0 then "-" else "+"
  let a := off.natAbs
  sign ++ pad2 (a / 60) ++ ":" ++ pad2 (a % 60)

/-- Python `datetime.isoformat()` (microseconds rendered only when
non-zero, as in CPython). -/
def isoDateTime (dt : PyDateTime) : String :=
  isoDate dt.date ++ "T" ++ pad2 dt.hour ++ ":" ++ pad2 dt.minute ++ ":" ++ pad2 dt.second
    ++ (if dt.microsecond = 0 then "" else "." ++ toString dt.microsecond)
    ++ (match dt.tzOffset with
        | Option.none => ""
        | Option.some off => isoOffset off)

/-- Leap-year test of the Gregorian calendar. -/
def isLeapYear (y : Nat) : Bool :=
  (y % 4 = 0 && y % 100 ≠ 0) || y % 400 = 0

/-- Days in a month of the Gregorian calendar. -/
def daysInMonth (y m : Nat) : Nat :=
  if m = 2 then (if isLeapYear y then 29 else 28)
  else if m = 4 || m = 6 || m = 9 || m = 11 then 30
  else 31

/-- Model of `datetime.date.fromisoformat`: exactly `YYYY-MM-DD` with a
valid calendar date, otherwise `ValueError`. -/
def dateFromIso (s : String) : Except PyError PyDate :=
  match s.toList with
  | [y1, y2, y3, y4, '-', m1, m2, '-', d1, d2] =>
    if [y1, y2, y3, y4, m1, m2, d1, d2].all isDigitChar then
      let y := digitsToNat [y1, y2, y3, y4]
      let m := digitsToNat [m1, m2]
      let d := digitsToNat [d1, d2]
      if 1 ≤ y && 1 ≤ m && m ≤ 12 && 1 ≤ d && d ≤ daysInMonth y m then
        .ok ⟨y, m, d⟩
      else
        .error (.valueError ("Invalid isoformat string: " ++ s))
    else
      .error (.valueError ("Invalid isoformat string: " ++ s))
  | _ => .error (.valueError ("Invalid isoformat string: " ++ s))

/-- Timezone suffix parser for `datetime.fromisoformat`: empty or
`±HH:MM`. -/
def parseTzOffset (rest : List Char) : Except PyError (Option Int) :=
  match rest with
  | [] => .ok Option.none
  | sign :: [h1, h2, ':', mi1, mi2] =>
    if (sign = '+' || sign = '-') && [h1, h2, mi1, mi2].all isDigitChar then
      let mins : Int := (digitsToNat [h1, h2]) * 60 + digitsToNat [mi1, mi2]
      .ok (Option.some (if sign = '-' then -mins else mins))
    else .error (.valueError "Invalid isoformat string")
  | _ => .error (.valueError "Invalid isoformat string")

/-- Time-of-day component parser for `datetime.fromisoformat`:
`HH[:MM[:SS[.fff⟦fff⟧]]]` followed by an optional `±HH:MM` offset. -/
def timeFromChars (cs : List Char) : Except PyError (Nat × Nat × Nat × Nat × Option Int) :=
  match cs with
  | h1 :: h2 :: rest =>
    if ¬ (isDigitChar h1 && isDigitChar h2) then .error (.valueError "Invalid isoformat string") else
    let h := digitsToNat [h1, h2]
    if h ≥ 24 then .error (.valueError "Invalid isoformat string") else
    match rest with
    | [] => .ok (h, 0, 0, 0, Option.none)
    | ':' :: mi1 :: mi2 :: rest2 =>
      if ¬ (isDigitChar mi1 && isDigitChar mi2) then .error (.valueError "Invalid isoformat string") else
      let mi := digitsToNat [mi1, mi2]
      if mi ≥ 60 then .error (.valueError "Invalid isoformat string") else
      (match rest2 with
      | [] => .ok (h, mi, 0, 0, Option.none)
      | ':' :: s1 :: s2 :: rest3 =>
        if ¬ (isDigitChar s1 && isDigitChar s2) then .error (.valueError "Invalid isoformat string") else
        let sec := digitsToNat [s1, s2]
        if sec ≥ 60 then .error (.valueError "Invalid isoformat string") else
        (match rest3 with
        | '.' :: rest4 =>
          let frac := rest4.takeWhile isDigitChar
          let after := rest4.drop frac.length
          if frac.length = 3 then
            match parseTzOffset after with
            | .error e => .error e
            | .ok off => .ok (h, mi, sec, digitsToNat frac * 1000, off)
          else if frac.length = 6 then
            match parseTzOffset after with
            | .error e => .error e
            | .ok off => .ok (h, mi, sec, digitsToNat frac, off)
          else .error (.valueError "Invalid isoformat string")
        | _ =>
          match parseTzOffset rest3 with
          | .error e => .error e
          | .ok off => .ok (h, mi, sec, 0, off))
      | _ =>
        match parseTzOffset rest2 with
        | .error e => .error e
        | .ok off => .ok (h, mi, 0, 0, off))
    | _ =>
      match parseTzOffset rest with
      | .error e => .error e
      | .ok off => .ok (h, 0, 0, 0, off)
  | _ => .error (.valueError "Invalid isoformat string")

/-- Model of `datetime.datetime.fromisoformat` as of CPython ≤ 3.10: a
date, optionally followed by any single separator character and a time of
day with optional fractional seconds (3 or 6 digits) and optional `±HH:MM`
offset. -/
def datetimeFromIso (s : String) : Except PyError PyDateTime :=
  let cs := s.toList
  match dateFromIso (cs.take 10).asString with
  | .error e => .error e
  | .ok d =>
    match cs.drop 10 with
    | [] => .ok ⟨d, 0, 0, 0, 0, Option.none⟩
    | _ :: timeChars =>
      match timeFromChars timeChars with
      | .error e => .error e
      | .ok (h, mi, sec, usec, off) => .ok ⟨d, h, mi, sec, usec, off⟩

/-- Truncation of a rational toward zero, the behaviour of Python `int()`
on a finite float. -/
def truncRat (q : ℚ) : Int :=
  Int.tdiv q.num (q.den : Int)

/-- Model of Python `int()` on a float: truncates finite values toward
zero, raises `ValueError` for NaN and `OverflowError` for infinities. -/
def pyIntOfFloat : PyFloat → Except PyError Int
  | .finite q => .ok (truncRat q)
  | .nan => .error (.valueError "cannot convert float NaN to integer")
  | .inf => .error (.overflowError "cannot convert float infinity to integer")
  | .negInf => .error (.overflowError "cannot convert float infinity to integer")

/-- Unsigned decimal literal parser: `digits[.digits][e[sign]digits]`, at
least one digit overall, returning the exact rational value. -/
def parseDecLiteral (cs : List Char) : Option ℚ :=
  let intPart := cs.takeWhile isDigitChar
  let rest := cs.drop intPart.length
  let fracAndRest :=
    match rest with
    | '.' :: r =>
      let frac := r.takeWhile isDigitChar
      Option.some (frac, r.drop frac.length)
    | _ => Option.some (([] : List Char), rest)
  match fracAndRest with
  | Option.none => Option.none
  | Option.some (frac, rest2) =>
    if intPart.isEmpty && frac.isEmpty then Option.none else
    let base : ℚ := (digitsToNat (intPart ++ frac) : ℚ) / ((10 : ℚ) ^ frac.length)
    match rest2 with
    | [] => Option.some base
    | e :: r =>
      if e = 'e' || e = 'E' then
        match r with
        | '+' :: ds => if ds ≠ [] && ds.all isDigitChar then Option.some (base * 10 ^ digitsToNat ds) else Option.none
        | '-' :: ds => if ds ≠ [] && ds.all isDigitChar then Option.some (base / 10 ^ digitsToNat ds) else Option.none
        | ds => if ds ≠ [] && ds.all isDigitChar then Option.some (base * 10 ^ digitsToNat ds) else Option.none
      else Option.none

/-- Model of Python `float(str)`: surrounding whitespace is stripped, an
optional sign is followed by `inf`/`infinity`/`nan` (case-insensitive) or a
decimal literal; unparseable text raises `ValueError`.  Values at or beyond
the double range collapse to infinity (threshold approximated as `2 ^ 1024`);
digit-group underscores are not modelled. -/
def floatOfStr (s : String) : Except PyError PyFloat :=
  let t := pyStrip s
  let signBody : Bool × List Char :=
    match t.toList with
    | '+' :: r => (false, r)
    | '-' :: r => (true, r)
    | r => (false, r)
  let neg := signBody.1
  let body := signBody.2
  let lowered := (body.map lowerChar).asString
  if lowered = "inf" || lowered = "infinity" then
    .ok (if neg then .negInf else .inf)
  else if lowered = "nan" then
    .ok .nan
  else
    match parseDecLiteral body with
    | Option.none => .error (.valueError ("could not convert string to float: " ++ s))
    | Option.some q =>
      if q ≥ 2 ^ 1024 then .ok (if neg then .negInf else .inf)
      else .ok (.finite (if neg then -q else q))

/-- Model of Python `Decimal(str)`: surrounding whitespace is stripped, an
optional sign is followed by `inf`/`infinity`/`nan` (case-insensitive) or a
decimal literal; unparseable text raises `decimal.InvalidOperation`. -/
def decimalOfStr (s : String) : Except PyError PyDec :=
  let t := pyStrip s
  let signBody : Bool × List Char :=
    match t.toList with
    | '+' :: r => (false, r)
    | '-' :: r => (true, r)
    | r => (false, r)
  let neg := signBody.1
  let body := signBody.2
  let lowered := (body.map lowerChar).asString
  if lowered = "inf" || lowered = "infinity" then
    .ok (if neg then .negInf else .inf)
  else if lowered = "nan" then
    .ok .nan
  else
    match parseDecLiteral body with
    | Option.none => .error (.invalidOperation ("invalid literal for Decimal: " ++ s))
    | Option.some q => .ok (.finite (if neg then -q else q))

-- Value operations

/-- Abbreviated rational display used when a float or decimal is rendered
through `str()`; the module only renders strings, numbers, uuids and dates
this way, so the abbreviation is never observable in the proved properties. -/
def ratStr (q : ℚ) : String :=
  if q.den = 1 then toString q.num ++ ".0" else toString q.num ++ "/" ++ toString q.den

/-- Python truthiness (`bool(value)`). -/
def Value.isTruthy : Value → Bool
  | .none => false
  | .bool b => b
  | .int n => decide (n ≠ 0)
  | .float f =>
    match f with
    | .finite q => decide (q ≠ 0)
    | _ => true
  | .str s => decide (s ≠ "")
  | .list xs => ¬ xs.isEmpty
  | .dict fs => ¬ fs.isEmpty
  | .decimal d =>
    match d with
    | .finite q => decide (q ≠ 0)
    | _ => true
  | .date _ => true
  | .datetime _ => true
  | .uuid _ => true

/-- Whether a value is a Python `dict`. -/
def Value.isDict : Value → Bool
  | .dict _ => true
  | _ => false

/-- Whether a value is a Python `bool`. -/
def Value.isBool : Value → Bool
  | .bool _ => true
  | _ => false

/-- Python `value.get(key)` on dicts (first binding wins, as dict keys are
unique).  Attribute access on non-mappings raises `AttributeError` in
Python; the embedding returns the absent marker instead, and every theorem
quantifying over payloads restricts the relevant entries to dicts so the
difference is unobservable. -/
def Value.get : Value → String → Value
  | .dict fs, k => (fs.lookup k).getD .none
  | _, _ => .none

/-- Python `value or {}`. -/
def Value.orDict (v : Value) : Value :=
  if v.isTruthy then v else .dict []

/-- List elements of a value: the Python `for` loops of the module run over
`payload.get(key, []) or []`; non-list truthy values would make the loop
body raise in Python and are excluded by payload-shape hypotheses. -/
def Value.asList : Value → List Value
  | .list xs => xs
  | _ => []

/-- Python `str(value)`. -/
def Value.pyStr : Value → String
  | .none => "None"
  | .bool b => if b then "True" else "False"
  | .int n => toString n
  | .float f =>
    match f with
    | .finite q => ratStr q
    | .inf => "inf"
    | .negInf => "-inf"
    | .nan => "nan"
  | .str s => s
  | .list _ => "[list]"
  | .dict _ => "[dict]"
  | .decimal d =>
    match d with
    | .finite q => ratStr q
    | .inf => "Infinity"
    | .negInf => "-Infinity"
    | .nan => "NaN"
  | .date d => isoDate d
  | .datetime dt => isoDate dt.date ++ " " ++ pad2 dt.hour ++ ":" ++ pad2 dt.minute ++ ":" ++ pad2 dt.second
  | .uuid n => uuidStr n

/-- Python `==` between a payload value and a string literal: only equal
strings compare equal. -/
def valueEqStr (v : Value) (t : String) : Bool :=
  match v with
  | .str s => s == t
  | _ => false

/-- Replace or append one key of a dict value (used for the snapshot
`document_id` fix-up). -/
def dictSet (v : Value) (k : String) (x : Value) : Value :=
  match v with
  | .dict fs =>
    if fs.any (fun p => p.1 == k) then
      .dict (fs.map (fun p => if p.1 == k then (p.1, x) else p))
    else
      .dict (fs ++ [(k, x)])
  | other => other

-- Value normalizers (supabase_store.py lines 64-214)

/-- The closed set `_DOCUMENT_LABELS`. -/
def DOCUMENT_LABELS : List String :=
  ["invoice", "bol", "purchase_order", "inspection", "cold_storage_invoice",
   "usda_inspection", "unknown"]

/-- The closed set `_DOCUMENT_STATUS_VALUES`. -/
def DOCUMENT_STATUS_VALUES : List String :=
  ["classified", "extracted", "stored", "failed", "soft_deleted"]

/-- Embedding of `_normalize_document_label`. -/
def normalize_document_label (label : Value) : String :=
  match label with
  | .str s =>
    let trimmed := pyLower (pyStrip s)
    if DOCUMENT_LABELS.contains trimmed then trimmed else "unknown"
  | _ => "unknown"

/-- Embedding of `_ensure_document_status`. -/
def ensure_document_status (v : String) : Except PyError String :=
  if DOCUMENT_STATUS_VALUES.contains v then .ok v
  else .error (.valueError ("Invalid document status: " ++ v))

/-- Embedding of `_to_decimal`.  The numeric branch runs
`Decimal(str(value))`: exact for ints, floats and decimals, and a raised
`InvalidOperation` for bools (`Decimal("True")`), which Python's
`isinstance(value, int)` lets through uncaught. -/
def to_decimal (v : Value) : Except PyError (Option PyDec)
  := match v with
  | .none => .ok Option.none
  | .bool b => (decimalOfStr (Value.pyStr (.bool b))).map Option.some
  | .int n => .ok (Option.some (.finite (n : ℚ)))
  | .float f =>
    .ok (Option.some (match f with
      | .finite q => .finite q
      | .inf => .inf
      | .negInf => .negInf
      | .nan => .nan))
  | .decimal d => .ok (Option.some d)
  | .str s =>
    let text := pyStrip s
    if text = "" then .ok Option.none
    else
      let text2 := if text.toList.head? = Option.some '$' then (text.toList.drop 1).asString else text
      match decimalOfStr text2 with
      | .ok d => .ok (Option.some d)
      | .error e => if e.isInvalidOperation then .ok Option.none else .error e
  | _ => .ok Option.none

/-- Embedding of `_to_int`.  `isinstance(value, int)` lets bools through; the
float branch calls `int(value)` with no handler, and the string branch
wraps `int(float(text))` in `except ValueError` only, so `OverflowError`
from an infinite parsed float escapes. -/
def to_int (v : Value) : Except PyError (Option Int)
  := match v with
  | .none => .ok Option.none
  | .bool b => .ok (Option.some (if b then 1 else 0))
  | .int n => .ok (Option.some n)
  | .float f => (pyIntOfFloat f).map Option.some
  | .str s =>
    let text := pyStrip s
    if text = "" then .ok Option.none
    else
      match floatOfStr text with
      | .error e => if e.isValueError then .ok Option.none else .error e
      | .ok f =>
        match pyIntOfFloat f with
        | .ok n => .ok (Option.some n)
        | .error e => if e.isValueError then .ok Option.none else .error e
  | _ => .ok Option.none

/-- Embedding of `_parse_date`.  Python's `isinstance(value, date)` also
matches `datetime` values (subclass); the typed component keeps their date
part here, while the raw component is the full `isoformat()` as in the
source. -/
def parse_date (v : Value) : Except PyError (Option PyDate × Option String)
  := if ¬ v.isTruthy then .ok (Option.none, Option.none)
  else match v with
  | .date d => .ok (Option.some d, Option.some (isoDate d))
  | .datetime dt => .ok (Option.some dt.date, Option.some (isoDateTime dt))
  | .str s =>
    let trimmed := pyStrip s
    if trimmed = "" then .ok (Option.none, Option.none)
    else
      match dateFromIso trimmed with
      | .ok d => .ok (Option.some d, Option.some trimmed)
      | .error e =>
        if e.isValueError then .ok (Option.none, Option.some trimmed) else .error e
  | _ => .ok (Option.none, Option.none)

/-- Embedding of `_trim_text`. -/
def trim_text (v : Value) : Option String :=
  match v with
  | .none => Option.none
  | .str s =>
    let trimmed := pyStrip s
    if trimmed = "" || [":null", "null", "n/a", "na"].contains (pyLower trimmed) then
      Option.none
    else
      Option.some trimmed
  | other => Option.some other.pyStr

/-- Embedding of `_to_jsonb`: passes dict/list values through for storage,
absent otherwise. -/
def to_jsonb (v : Value) : Option Value :=
  match v with
  | .dict _ => Option.some v
  | .list _ => Option.some v
  | _ => Option.none

/-- Embedding of `_to_uuid`. -/
def to_uuid (v : Value) : Except PyError (Option Nat)
  := match v with
  | .none => .ok Option.none
  | .uuid n => .ok (Option.some n)
  | .str s =>
    match uuidFromStr s with
    | .ok n => .ok (Option.some n)
    | .error e => if e.isValueError then .ok Option.none else .error e
  | _ => .ok Option.none

/-- The `trimmed[:-1] + "+00:00" if trimmed.endswith("Z") else trimmed`
normalization of `_parse_timestamp`. -/
def normalizeZ (t : String) : String :=
  if t.toList.getLast? = Option.some 'Z' then (t.toList.dropLast).asString ++ "+00:00"
  else t

/-- Embedding of `_parse_timestamp`: a trailing `Z` becomes `+00:00`, a
failed datetime parse falls back to date-only parsing at midnight, and any
remaining failure keeps the trimmed raw text. -/
def parse_timestamp (v : Value) : Except PyError (Option PyDateTime × Option String)
  := if ¬ v.isTruthy then .ok (Option.none, Option.none)
  else match v with
  | .datetime dt => .ok (Option.some dt, Option.some (isoDateTime dt))
  | .str s =>
    let trimmed := pyStrip s
    if trimmed = "" then .ok (Option.none, Option.none)
    else
      match datetimeFromIso (normalizeZ trimmed) with
      | .ok dt => .ok (Option.some dt, Option.some trimmed)
      | .error e1 =>
        if e1.isValueError then
          match dateFromIso trimmed with
          | .ok d => .ok (Option.some ⟨d, 0, 0, 0, 0, Option.none⟩, Option.some trimmed)
          | .error e2 =>
            if e2.isValueError then .ok (Option.none, Option.some trimmed) else .error e2
        else .error e1
  | _ => .ok (Option.none, Option.none)

/-- One leftmost-greedy match of `_PERCENTAGE_PATTERN`
(`-?\d+(?:\.\d+)?`) at the head of the character list. -/
def matchNumAt (cs : List Char) : Option (String × List Char) :=
  let negRest : Bool × List Char :=
    match cs with
    | '-' :: r => (true, r)
    | r => (false, r)
  let neg := negRest.1
  let rest := negRest.2
  let ds := rest.takeWhile isDigitChar
  if ds.isEmpty then Option.none
  else
    let rest2 := rest.drop ds.length
    let core := (if neg then ['-'] else []) ++ ds
    match rest2 with
    | '.' :: r2 =>
      let fs := r2.takeWhile isDigitChar
      if fs.isEmpty then Option.some (core.asString, rest2)
      else Option.some ((core ++ ['.'] ++ fs).asString, r2.drop fs.length)
    | _ => Option.some (core.asString, rest2)

/-- Fuel-driven scan implementing `re.findall` for `_PERCENTAGE_PATTERN`
(leftmost, non-overlapping, greedy); the fuel is the remaining length. -/
def findNumsAux : Nat → List Char → List String
  | 0, _ => []
  | fuel + 1, cs =>
    match matchNumAt cs with
    | Option.some (tok, rest) => tok :: findNumsAux fuel rest
    | Option.none =>
      match cs with
      | [] => []
      | _ :: r => findNumsAux fuel r

/-- All matches of `_PERCENTAGE_PATTERN` in a string. -/
def findNums (s : String) : List String :=
  findNumsAux (s.toList.length + 1) s.toList

/-- Embedding of `_parse_percentage_range`.  The numeric branch goes
through `_to_decimal`, so a bool input raises exactly as in the source. -/
def parse_percentage_range (v : Value) : Except PyError (Option PyDec × Option PyDec)
  := match v with
  | .none => .ok (Option.none, Option.none)
  | .bool b =>
    match to_decimal (.bool b) with
    | .ok d => .ok (d, d)
    | .error e => .error e
  | .int n =>
    match to_decimal (.int n) with
    | .ok d => .ok (d, d)
    | .error e => .error e
  | .float f =>
    match to_decimal (.float f) with
    | .ok d => .ok (d, d)
    | .error e => .error e
  | .decimal d0 =>
    match to_decimal (.decimal d0) with
    | .ok d => .ok (d, d)
    | .error e => .error e
  | .str s =>
    let trimmed := pyStrip s
    if trimmed = "" then .ok (Option.none, Option.none)
    else
      match findNums trimmed with
      | [] => .ok (Option.none, Option.none)
      | [m] =>
        match to_decimal (.str m) with
        | .ok num => .ok (num, num)
        | .error e => .error e
      | m0 :: m1 :: _ =>
        match to_decimal (.str m0) with
        | .error e => .error e
        | .ok low =>
          match to_decimal (.str m1) with
          | .error e => .error e
          | .ok high => .ok (low, high)
  | _ => .ok (Option.none, Option.none)

-- Relational store model

/-- Embedding of the `InsertContext` dataclass. -/
structure InsertContext where
  source_filename : Option String := Option.none
  source_mime : Option String := Option.none
  org_id : Option Int := Option.none
  source_doc_id : Option String := Option.none
  document_id : Option Nat := Option.none
deriving DecidableEq, Repr

/-- Python truthiness of an optional string (`None` and `""` are falsy). -/
def optStrTruthy : Option String → Bool
  | Option.none => false
  | Option.some s => s ≠ ""

/-- Row of `openai.documents`.  The columns not set by the insert take the
schema defaults, which are not part of the sources; `status = "classified"`,
an empty `assigned_bundles` array and a null `document_data` are modelled
from the spec (document lifecycle, §3). -/
structure DocumentRow where
  id : Nat
  org_id : Option Int
  source_filename : Option String
  source_mime : Option String
  classification_label : String
  classification_confidence : Option PyDec
  classification_reasoning : Option String
  metadata : Option Value
  status : String
  assigned_bundles : List String
  document_data : Option Value

/-- Row of `openai.bundles`.  `documents_snapshot = []` and the two
timestamps defaulting to `now()` are schema defaults modelled from the
spec (§3 Bundle attributes). -/
structure BundleRow where
  id : Nat
  org_id : Int
  primary_document_id : Nat
  key_po_number : Option String
  key_invoice_number : Option String
  key_summary : Option Value
  documents_snapshot : List Value
  created_at : Nat
  updated_at : Nat

/-- Row of the `openai.bundle_documents` join table. -/
structure BundleDocRow where
  bundle_id : Nat
  document_id : Nat
  doc_type : String
  document_snapshot : Value

/-- Row of one of the per-type parent/child tables, stored generically as
the column assignment the mapper produced (`_insert_and_return` receives
exactly such a dict). -/
structure EntityRow where
  table : String
  id : Nat
  values : List (String × Value)

/-- The relational store plus an id generator, an abstract wall clock, and
a ghost log of every `status` write performed by `_set_document_status`
(used to state that a status value was never written). -/
structure DB where
  documents : List DocumentRow
  bundles : List BundleRow
  bundle_documents : List BundleDocRow
  entity_rows : List EntityRow
  next_id : Nat
  clock : Nat
  status_log : List (Nat × String)

/-- The store with no rows. -/
def DB.empty : DB :=
  { documents := [], bundles := [], bundle_documents := [], entity_rows := [],
    next_id := 1, clock := 0, status_log := [] }

/-- Embedding of `_insert_and_return` for the generically-stored per-type
tables: appends the row and returns the generated id. -/
def insert_and_return (table : String) (values : List (String × Value)) (s : DB) : Nat × DB :=
  (s.next_id,
   { s with entity_rows := s.entity_rows ++ [{ table := table, id := s.next_id, values := values }],
            next_id := s.next_id + 1 })

/-- Column read on a generically-stored row; a column the mapper did not
set is SQL NULL. -/
def EntityRow.col (r : EntityRow) (k : String) : Value :=
  (r.values.lookup k).getD .none

/-- Value renderings of the typed column values the mappers produce. -/
def strOptV : Option String → Value
  | Option.none => .none
  | Option.some s => .str s

/-- Decimal column value. -/
def decOptV : Option PyDec → Value
  | Option.none => .none
  | Option.some d => .decimal d

/-- Date column value. -/
def dateOptV : Option PyDate → Value
  | Option.none => .none
  | Option.some d => .date d

/-- Timestamp column value. -/
def dtOptV : Option PyDateTime → Value
  | Option.none => .none
  | Option.some d => .datetime d

/-- Integer column value. -/
def intOptV : Option Int → Value
  | Option.none => .none
  | Option.some n => .int n

/-- Uuid column value. -/
def uuidOptV : Option Nat → Value
  | Option.none => .none
  | Option.some n => .uuid n

/-- Jsonb column value. -/
def jsonbOptV : Option Value → Value
  | Option.none => .none
  | Option.some v => v

/-- View of `InsertContext.source_doc_id` as a loosely-typed value (the
dataclass field is `str | None`). -/
def ctxSourceDocV (ctx : InsertContext) : Value :=
  strOptV ctx.source_doc_id

/-- Embedding of `_require_document_id`. -/
def require_document_id (ctx : InsertContext) : Except PyError Nat :=
  match ctx.document_id with
  | Option.none => .error (.valueError "InsertContext.document_id must be set before inserting entity rows.")
  | Option.some d => .ok d

-- Document registry (supabase_store.py lines 217-263)

/-- Embedding of `_insert_or_get_document`: an id already carried by the
context is returned unchanged with no store mutation; otherwise a tenant id
is required and a new document row is inserted with the normalized label
and a classification snapshot. -/
def insert_or_get_document (classification : Value) (ctx : InsertContext) (s : DB) :
    Except PyError (Nat × InsertContext × DB) :=
  match ctx.document_id with
  | Option.some d => .ok (d, ctx, s)
  | Option.none =>
    match ctx.org_id with
    | Option.none => .error (.valueError "InsertContext.org_id must be provided to insert a document.")
    | Option.some org =>
      let label := normalize_document_label (classification.get "label")
      match to_decimal (classification.get "confidence") with
      | .error e => .error e
      | .ok confidence =>
        let reasoning := trim_text (classification.get "reasoning")
        let metadataFields :=
          (if classification.isTruthy then [("classification", classification)] else [])
            ++ (if optStrTruthy ctx.source_doc_id then
                  [("source_doc_id", strOptV ctx.source_doc_id)] else [])
        let metadata :=
          if metadataFields.isEmpty then Option.none else to_jsonb (.dict metadataFields)
        let row : DocumentRow :=
          { id := s.next_id
            org_id := Option.some org
            source_filename := trim_text (strOptV ctx.source_filename)
            source_mime := trim_text (strOptV ctx.source_mime)
            classification_label := label
            classification_confidence := confidence
            classification_reasoning := reasoning
            metadata := metadata
            status := "classified"
            assigned_bundles := []
            document_data := Option.none }
        .ok (s.next_id, { ctx with document_id := Option.some s.next_id },
             { s with documents := s.documents ++ [row], next_id := s.next_id + 1 })

/-- Embedding of `_set_document_status`: the value is validated against the
closed enum and then written unconditionally to the matching row. -/
def set_document_status (s : DB) (document_id : Nat) (status : String) : Except PyError DB :=
  match ensure_document_status status with
  | .error e => .error e
  | .ok status_value =>
    .ok { s with
          documents := s.documents.map
            (fun d => if d.id = document_id then { d with status := status_value } else d)
          status_log := s.status_log ++ [(document_id, status_value)] }

-- Type-specific mappers (supabase_store.py lines 699-1356)

/-- Python `option or default` on trimmed text. -/
def orElseStr (o : Option String) (d : String) : String :=
  match o with
  | Option.some s => if s = "" then d else s
  | Option.none => d

/-- Child-row loop of `_insert_invoice`. -/
def insert_invoice_lines (invoice_id : Nat) (org_id : Option Int) :
    List Value → DB → Except PyError DB
  | [], s => .ok s
  | line :: rest, s => do
    let weight_obj := if (line.get "weight").isDict then Option.some (line.get "weight") else Option.none
    let line_number := trim_text (line.get "lineNumber")
    let item := trim_text (line.get "item")
    let label := trim_text (line.get "label")
    let description := trim_text (line.get "description")
    let quantity ← to_decimal (line.get "quantity")
    let units := trim_text (line.get "units")
    let uom := trim_text (line.get "uom")
    let unit_price ← to_decimal (line.get "unitPrice")
    let extended_amount ← to_decimal (line.get "extendedAmount")
    let sku := trim_text (line.get "sku")
    let lot := trim_text (line.get "lot")
    let pallet_count ← to_decimal (line.get "palletCount")
    let weight_value ← match weight_obj with
      | Option.some w => to_decimal (w.get "value")
      | Option.none => pure Option.none
    let weight_unit := match weight_obj with
      | Option.some w => trim_text (w.get "unit")
      | Option.none => Option.none
    let tax ← to_decimal (line.get "tax")
    let s1 := (insert_and_return "openai.invoice_line_items"
      [("invoice_id", .uuid invoice_id),
       ("line_number", strOptV line_number),
       ("item", strOptV item),
       ("label", strOptV label),
       ("description", strOptV description),
       ("quantity", decOptV quantity),
       ("units", strOptV units),
       ("uom", strOptV uom),
       ("unit_price", decOptV unit_price),
       ("extended_amount", decOptV extended_amount),
       ("sku", strOptV sku),
       ("lot", strOptV lot),
       ("pallet_count", decOptV pallet_count),
       ("weight_value", decOptV weight_value),
       ("weight_unit", strOptV weight_unit),
       ("tax", decOptV tax),
       ("org_id", intOptV org_id)] s).2
    insert_invoice_lines invoice_id org_id rest s1

/-- Embedding of `_insert_invoice`. -/
def insert_invoice (extraction : Value) (ctx : InsertContext) (s : DB) :
    Except PyError (List (String × Nat) × DB) := do
  let data := (extraction.get "data").orDict
  let issueP ← parse_date (data.get "issueDate")
  let dueP ← parse_date (data.get "dueDate")
  let deliveryP ← parse_date (data.get "deliveryDate")
  let source_doc_uuid ← to_uuid (ctxSourceDocV ctx)
  let document_id ← require_document_id ctx
  let subtotal ← to_decimal (data.get "subtotal")
  let tax_total ← to_decimal (data.get "taxTotal")
  let freight_total ← to_decimal (data.get "freightTotal")
  let other_total ← to_decimal (data.get "otherTotal")
  let grand_total ← to_decimal (data.get "grandTotal")
  let ir := insert_and_return "openai.invoices"
    [("document_id", .uuid document_id),
     ("invoice_number", strOptV (trim_text (data.get "invoiceNumber"))),
     ("vendor_name", strOptV (trim_text (data.get "vendorName"))),
     ("vendor_address", strOptV (trim_text (data.get "vendorAddress"))),
     ("vendor_phone", strOptV (trim_text (data.get "vendorPhone"))),
     ("vendor_contact", strOptV (trim_text (data.get "vendorContact"))),
     ("sales_contact", strOptV (trim_text (data.get "salesContact"))),
     ("currency", strOptV (trim_text (data.get "currency"))),
     ("subtotal", decOptV subtotal),
     ("tax_total", decOptV tax_total),
     ("freight_total", decOptV freight_total),
     ("other_total", decOptV other_total),
     ("grand_total", decOptV grand_total),
     ("issue_date", dateOptV issueP.1),
     ("issue_date_raw", strOptV issueP.2),
     ("due_date", dateOptV dueP.1),
     ("due_date_raw", strOptV dueP.2),
     ("delivery_date", dateOptV deliveryP.1),
     ("delivery_date_raw", strOptV deliveryP.2),
     ("po_reference", strOptV (trim_text (data.get "poReference"))),
     ("customer_po_number", strOptV (trim_text (data.get "customerPONumber"))),
     ("terms", strOptV (trim_text (data.get "terms"))),
     ("order_type", strOptV (trim_text (data.get "orderType"))),
     ("bill_to", strOptV (trim_text (data.get "billTo"))),
     ("ship_to", strOptV (trim_text (data.get "shipTo"))),
     ("delivery_company", strOptV (trim_text (data.get "deliveryCompany"))),
     ("delivery_address", strOptV (trim_text (data.get "deliveryAddress"))),
     ("brand", strOptV (trim_text (data.get "brand"))),
     ("confidence", data.get "confidence"),
     ("raw_text", data.get "rawText"),
     ("metadata", jsonbOptV (to_jsonb (data.get "invoiceMetadata"))),
     ("source_doc_id", uuidOptV source_doc_uuid),
     ("org_id", intOptV ctx.org_id)] s
  let invoice_id := ir.1
  let s2 ← insert_invoice_lines invoice_id ctx.org_id (data.get "invoiceLines").asList ir.2
  pure ([("openai.invoices", invoice_id)], s2)

/-- Lookup in the `lots_by_number` index of `_insert_bol`: the dict
comprehension keeps truthy lots with a truthy `lotNumber` key, later
entries overriding earlier ones, and `get(trimmed_lot)` matches the key by
Python equality against the trimmed string. -/
def lookupLotDetails (lotDetails : List Value) (t : String) : Option Value :=
  lotDetails.reverse.find?
    (fun lot => lot.isTruthy && (lot.get "lotNumber").isTruthy && valueEqStr (lot.get "lotNumber") t)

/-- Inner lot loop of the `_insert_bol` item loop. -/
def insert_bol_item_lots (bol_item_id : Nat) (org_id : Option Int) (lotDetails : List Value) :
    List Value → DB → Except PyError DB
  | [], s => .ok s
  | lot_number :: rest, s =>
    match trim_text lot_number with
    | Option.none => insert_bol_item_lots bol_item_id org_id lotDetails rest s
    | Option.some t =>
      if t = "" then insert_bol_item_lots bol_item_id org_id lotDetails rest s
      else do
        let details := lookupLotDetails lotDetails t
        let quantity ← match details with
          | Option.some dd => to_decimal (dd.get "quantity")
          | Option.none => pure Option.none
        let weight_value ← match details with
          | Option.some dd => to_decimal (dd.get "weight")
          | Option.none => pure Option.none
        let weight_unit := match details with
          | Option.some dd => trim_text (dd.get "weightUnit")
          | Option.none => Option.none
        let s1 := (insert_and_return "openai.bol_item_lots"
          [("bol_item_id", .uuid bol_item_id),
           ("lot_number", .str t),
           ("quantity", decOptV quantity),
           ("weight_value", decOptV weight_value),
           ("weight_unit", strOptV weight_unit),
           ("org_id", intOptV org_id)] s).2
        insert_bol_item_lots bol_item_id org_id lotDetails rest s1

/-- Item loop of `_insert_bol`. -/
def insert_bol_items (bol_id : Nat) (org_id : Option Int) (lotDetails : List Value) :
    List Value → DB → Except PyError DB
  | [], s => .ok s
  | item :: rest, s => do
    let quantity ← to_decimal (item.get "quantity")
    let weight_value ← to_decimal (item.get "weight")
    let ir := insert_and_return "openai.bol_items"
      [("bol_id", .uuid bol_id),
       ("line_number", strOptV (trim_text (item.get "lineNumber"))),
       ("description", .str (orElseStr (trim_text (item.get "description")) "Unknown")),
       ("commodity", strOptV (trim_text (item.get "commodity"))),
       ("package_type", strOptV (trim_text (item.get "packageType"))),
       ("quantity", decOptV quantity),
       ("weight_value", decOptV weight_value),
       ("weight_unit", strOptV (trim_text (item.get "weightUnit"))),
       ("sku", strOptV (trim_text (item.get "sku"))),
       ("po_number", .none),
       ("org_id", intOptV org_id)] s
    let s2 ← insert_bol_item_lots ir.1 org_id lotDetails (item.get "lotNumbers").asList ir.2
    insert_bol_items bol_id org_id lotDetails rest s2

/-- Embedding of `_insert_bol`. -/
def insert_bol (extraction : Value) (ctx : InsertContext) (s : DB) :
    Except PyError (List (String × Nat) × DB) := do
  let data := (extraction.get "data").orDict
  let shipP ← parse_date (data.get "shipDate")
  let deliveryP ← parse_date (data.get "deliveryDate")
  let requestedP ← parse_date (data.get "requestedDate")
  let source_doc_uuid ← to_uuid (ctxSourceDocV ctx)
  let document_id ← require_document_id ctx
  let weights := (data.get "weights").orDict
  let temperature := (data.get "temperature").orDict
  let pallet_count ← to_int (data.get "palletCount")
  let weight_gross ← to_decimal (weights.get "gross")
  let weight_tare ← to_decimal (weights.get "tare")
  let weight_net ← to_decimal (weights.get "net")
  let temperature_setpoint ← to_decimal (temperature.get "setpoint")
  let temperature_min ← to_decimal (temperature.get "min")
  let temperature_max ← to_decimal (temperature.get "max")
  let ir := insert_and_return "openai.bols"
    [("document_id", .uuid document_id),
     ("bol_number", strOptV (trim_text (data.get "bolNumber"))),
     ("carrier", strOptV (trim_text (data.get "carrier"))),
     ("shipper", strOptV (trim_text (data.get "shipper"))),
     ("carrier_scac", strOptV (trim_text (data.get "carrierSCAC"))),
     ("carrier_name", strOptV (trim_text (data.get "carrierName"))),
     ("pro_number", strOptV (trim_text (data.get "proNumber"))),
     ("tracking_number", strOptV (trim_text (data.get "trackingNumber"))),
     ("customer_po_number", strOptV (trim_text (data.get "customerPONumber"))),
     ("trailer_license", strOptV (trim_text (data.get "trailerLicense"))),
     ("seal_number", strOptV (trim_text (data.get "sealNumber"))),
     ("origin", strOptV (trim_text (data.get "origin"))),
     ("destination", strOptV (trim_text (data.get "destination"))),
     ("brand", strOptV (trim_text (data.get "brand"))),
     ("ship_date", dateOptV shipP.1),
     ("ship_date_raw", strOptV shipP.2),
     ("delivery_date", dateOptV deliveryP.1),
     ("delivery_date_raw", strOptV deliveryP.2),
     ("requested_date", dateOptV requestedP.1),
     ("requested_date_raw", strOptV requestedP.2),
     ("pickup_company", strOptV (trim_text (data.get "pickupCompany"))),
     ("pickup_address", strOptV (trim_text (data.get "pickupAddress"))),
     ("pickup_contact", strOptV (trim_text (data.get "pickupContact"))),
     ("pickup_phone", strOptV (trim_text (data.get "pickupPhone"))),
     ("delivery_company", strOptV (trim_text (data.get "deliveryCompany"))),
     ("delivery_address", strOptV (trim_text (data.get "deliveryAddress"))),
     ("delivery_contact", strOptV (trim_text (data.get "deliveryContact"))),
     ("delivery_phone", strOptV (trim_text (data.get "deliveryPhone"))),
     ("pallet_count", intOptV pallet_count),
     ("weight_gross", decOptV weight_gross),
     ("weight_tare", decOptV weight_tare),
     ("weight_net", decOptV weight_net),
     ("weight_unit", strOptV (trim_text (weights.get "unit"))),
     ("temperature_mode", strOptV (trim_text (temperature.get "mode"))),
     ("temperature_setpoint", decOptV temperature_setpoint),
     ("temperature_min", decOptV temperature_min),
     ("temperature_max", decOptV temperature_max),
     ("temperature_unit", strOptV (trim_text (temperature.get "unit"))),
     ("temperature_recorder_id", strOptV (trim_text (data.get "temperatureRecorderId"))),
     ("confidence", data.get "confidence"),
     ("raw_text", data.get "rawText"),
     ("metadata", jsonbOptV (to_jsonb (data.get "bolMetadata"))),
     ("source_doc_id", uuidOptV source_doc_uuid),
     ("org_id", intOptV ctx.org_id)] s
  let s2 ← insert_bol_items ir.1 ctx.org_id (data.get "lotDetails").asList
    (data.get "items").asList ir.2
  pure ([("openai.bols", ir.1)], s2)

/-- Lot list of a purchase-order line: a list value is iterated, an absent
value yields nothing, and any other value is treated as a singleton. -/
def poLineLots (lot_value : Value) : List Value :=
  match lot_value with
  | .list xs => xs
  | .none => []
  | v => [v]

/-- Inner lot loop of the `_insert_purchase_order` line loop. -/
def insert_po_line_lots (line_id : Nat) (org_id : Option Int) :
    List Value → DB → Except PyError DB
  | [], s => .ok s
  | lot_number :: rest, s =>
    match trim_text lot_number with
    | Option.none => insert_po_line_lots line_id org_id rest s
    | Option.some t =>
      if t = "" then insert_po_line_lots line_id org_id rest s
      else
        let s1 := (insert_and_return "openai.purchase_order_item_lots"
          [("po_line_item_id", .uuid line_id),
           ("lot_number", .str t),
           ("org_id", intOptV org_id)] s).2
        insert_po_line_lots line_id org_id rest s1

/-- Line loop of `_insert_purchase_order`. -/
def insert_po_lines (po_id : Nat) (org_id : Option Int) :
    List Value → DB → Except PyError DB
  | [], s => .ok s
  | line :: rest, s => do
    let quantity ← to_decimal (line.get "quantity")
    let unit_price ← to_decimal (line.get "unitPrice")
    let extended_amount ← to_decimal (line.get "extendedAmount")
    let pallet_count ← to_decimal (line.get "palletCount")
    let weight_value ← to_decimal (line.get "weightValue")
    let tax ← to_decimal (line.get "tax")
    let ir := insert_and_return "openai.purchase_order_line_items"
      [("po_id", .uuid po_id),
       ("line_number", strOptV (trim_text (line.get "lineNumber"))),
       ("item", strOptV (trim_text (line.get "item"))),
       ("label", strOptV (trim_text (line.get "label"))),
       ("description", strOptV (trim_text (line.get "description"))),
       ("quantity", decOptV quantity),
       ("units", strOptV (trim_text (line.get "units"))),
       ("unit_price", decOptV unit_price),
       ("extended_amount", decOptV extended_amount),
       ("uom", strOptV (trim_text (line.get "uom"))),
       ("sku", strOptV (trim_text (line.get "sku"))),
       ("lot", strOptV (trim_text (line.get "lot"))),
       ("pallet_count", decOptV pallet_count),
       ("weight_value", decOptV weight_value),
       ("weight_unit", strOptV (trim_text (line.get "weightUnit"))),
       ("tax", decOptV tax),
       ("org_id", intOptV org_id)] s
    let s2 ← insert_po_line_lots ir.1 org_id (poLineLots (line.get "lot")) ir.2
    insert_po_lines po_id org_id rest s2

/-- Embedding of `_insert_purchase_order`. -/
def insert_purchase_order (extraction : Value) (ctx : InsertContext) (s : DB) :
    Except PyError (List (String × Nat) × DB) := do
  let data := (extraction.get "data").orDict
  let document_id ← require_document_id ctx
  let amount ← to_decimal (data.get "amount")
  let subtotal ← to_decimal (data.get "subtotal")
  let tax_total ← to_decimal (data.get "taxTotal")
  let freight_total ← to_decimal (data.get "freightTotal")
  let other_total ← to_decimal (data.get "otherTotal")
  let grand_total ← to_decimal (data.get "grandTotal")
  let issueP ← parse_date (data.get "issueDate")
  let dueP ← parse_date (data.get "dueDate")
  let shipP ← parse_date (data.get "shipDate")
  let requestedP ← parse_date (data.get "requestedDate")
  let deliveryP ← parse_date (data.get "deliveryDate")
  let ir := insert_and_return "openai.purchase_orders"
    [("document_id", .uuid document_id),
     ("po_number", strOptV (trim_text (data.get "poNumber"))),
     ("vendor_name", strOptV (trim_text (data.get "vendorName"))),
     ("vendor_address", strOptV (trim_text (data.get "vendorAddress"))),
     ("vendor_phone", strOptV (trim_text (data.get "vendorPhone"))),
     ("vendor_contact", strOptV (trim_text (data.get "vendorContact"))),
     ("buyer_name", strOptV (trim_text (data.get "buyerName"))),
     ("buyer_address", strOptV (trim_text (data.get "buyerAddress"))),
     ("buyer_contact", strOptV (trim_text (data.get "buyerContact"))),
     ("sales_contact", strOptV (trim_text (data.get "salesContact"))),
     ("amount", decOptV amount),
     ("currency", strOptV (trim_text (data.get "currency"))),
     ("pay_terms", strOptV (trim_text (data.get "payTerms"))),
     ("subtotal", decOptV subtotal),
     ("tax_total", decOptV tax_total),
     ("freight_total", decOptV freight_total),
     ("other_total", decOptV other_total),
     ("grand_total", decOptV grand_total),
     ("issue_date", dateOptV issueP.1),
     ("due_date", dateOptV dueP.1),
     ("ship_date", dateOptV shipP.1),
     ("requested_date", dateOptV requestedP.1),
     ("delivery_date", dateOptV deliveryP.1),
     ("ship_to_city", strOptV (trim_text (data.get "shipToCity"))),
     ("ship_to_state", strOptV (trim_text (data.get "shipToState"))),
     ("delivery_company", strOptV (trim_text (data.get "deliveryCompany"))),
     ("delivery_address", strOptV (trim_text (data.get "deliveryAddress"))),
     ("brand", strOptV (trim_text (data.get "brand"))),
     ("po_category", strOptV (trim_text (data.get "poCategory"))),
     ("customer_po_number", strOptV (trim_text (data.get "customerPONumber"))),
     ("order_type", strOptV (trim_text (data.get "orderType"))),
     ("confidence", data.get "confidence"),
     ("raw_text", data.get "rawText"),
     ("po_metadata", jsonbOptV (to_jsonb (data.get "poMetadata"))),
     ("org_id", intOptV ctx.org_id)] s
  let s2 ← insert_po_lines ir.1 ctx.org_id (data.get "lineItems").asList ir.2
  pure ([("openai.purchase_orders", ir.1)], s2)

/-- Sample loop of `_insert_inspection`. -/
def insert_inspection_samples (inspection_id : Nat) (org_id : Option Int) :
    List Value → DB → Except PyError DB
  | [], s => .ok s
  | sample :: rest, s => do
    let bag_weight := (sample.get "bagWeight").orDict
    let temperature_sample := (sample.get "temperature").orDict
    let unit_count ← to_decimal (sample.get "unitCount")
    let bag_weight_value ← to_decimal (bag_weight.get "value")
    let count_value ← to_decimal (sample.get "count")
    let temperature_value ← to_decimal (temperature_sample.get "value")
    let score ← to_decimal (sample.get "score")
    let s1 := (insert_and_return "openai.inspection_samples"
      [("inspection_id", .uuid inspection_id),
       ("sample_no", strOptV (trim_text (sample.get "sampleNo"))),
       ("sample_id", strOptV (trim_text (sample.get "sampleId"))),
       ("lot_number", strOptV (trim_text (sample.get "lotNumber"))),
       ("pack_size", strOptV (trim_text (sample.get "packSize"))),
       ("item_description", .str (orElseStr (trim_text (sample.get "itemDescription")) "Unknown")),
       ("unit_count", decOptV unit_count),
       ("pallet_info", strOptV (trim_text (sample.get "palletInfo"))),
       ("bag_weight_value", decOptV bag_weight_value),
       ("bag_weight_unit", strOptV (trim_text (bag_weight.get "unit"))),
       ("count_value", decOptV count_value),
       ("temperature_value", decOptV temperature_value),
       ("temperature_unit", strOptV (trim_text (temperature_sample.get "unit"))),
       ("score", decOptV score),
       ("notes", strOptV (trim_text (sample.get "notes"))),
       ("org_id", intOptV org_id)] s).2
    insert_inspection_samples inspection_id org_id rest s1

/-- Defect loop of `_insert_inspection`. -/
def insert_inspection_defects (inspection_id : Nat) (org_id : Option Int) :
    List Value → DB → Except PyError DB
  | [], s => .ok s
  | defect :: rest, s => do
    let count_value ← to_decimal (defect.get "count")
    let percent ← to_decimal (defect.get "percent")
    let s1 := (insert_and_return "openai.inspection_defects"
      [("inspection_id", .uuid inspection_id),
       ("code", .str (orElseStr (trim_text (defect.get "code")) "Unknown")),
       ("severity", strOptV (trim_text (defect.get "severity"))),
       ("count_value", decOptV count_value),
       ("percent", decOptV percent),
       ("notes", strOptV (trim_text (defect.get "notes"))),
       ("org_id", intOptV org_id)] s).2
    insert_inspection_defects inspection_id org_id rest s1

/-- Photo loop of `_insert_inspection`. -/
def insert_inspection_photos (inspection_id : Nat) (org_id : Option Int) :
    List Value → DB → Except PyError DB
  | [], s => .ok s
  | photo :: rest, s =>
    let s1 := (insert_and_return "openai.inspection_photos"
      [("inspection_id", .uuid inspection_id),
       ("url", .str (orElseStr (trim_text (photo.get "url")) "")),
       ("description", strOptV (trim_text (photo.get "description"))),
       ("org_id", intOptV org_id)] s).2
    insert_inspection_photos inspection_id org_id rest s1

/-- Embedding of `_insert_inspection`. -/
def insert_inspection (extraction : Value) (ctx : InsertContext) (s : DB) :
    Except PyError (List (String × Nat) × DB) := do
  let data := (extraction.get "data").orDict
  let inspectionP ← parse_date (data.get "inspectionDate")
  let deliveryP ← parse_date (data.get "deliveryDate")
  let temperature := (data.get "temperature").orDict
  let source_doc_uuid ← to_uuid (ctxSourceDocV ctx)
  let document_id ← require_document_id ctx
  let temperature_value ← to_decimal (temperature.get "value")
  let deliveryInfo := (data.get "deliveryInfo").orDict
  let ir := insert_and_return "openai.inspections"
    [("document_id", .uuid document_id),
     ("inspection_number", strOptV (trim_text (data.get "inspectionNumber"))),
     ("inspection_date", dateOptV inspectionP.1),
     ("inspection_date_raw", strOptV inspectionP.2),
     ("inspection_time", strOptV (trim_text (data.get "inspectionTime"))),
     ("commodity", strOptV (trim_text (data.get "commodity"))),
     ("brand", strOptV (trim_text (data.get "brand"))),
     ("grade", strOptV (trim_text (data.get "grade"))),
     ("location", strOptV (trim_text (data.get "location"))),
     ("facility", strOptV (trim_text (data.get "facility"))),
     ("inspector", strOptV (trim_text (data.get "inspector"))),
     ("control_point", strOptV (trim_text (data.get "controlPoint"))),
     ("lot_or_po", strOptV (trim_text (data.get "lotOrPo"))),
     ("comments", strOptV (trim_text (data.get "comments"))),
     ("sales_contact", strOptV (trim_text (data.get "salesContact"))),
     ("vendor_contact", strOptV (trim_text (data.get "vendorContact"))),
     ("order_type", strOptV (trim_text (data.get "orderType"))),
     ("terms", strOptV (trim_text (data.get "terms"))),
     ("delivery_company", strOptV (trim_text (deliveryInfo.get "company"))),
     ("delivery_address", strOptV (trim_text (deliveryInfo.get "address"))),
     ("delivery_contact", strOptV (trim_text (deliveryInfo.get "contact"))),
     ("delivery_date", dateOptV deliveryP.1),
     ("delivery_date_raw", strOptV deliveryP.2),
     ("temperature_value", decOptV temperature_value),
     ("temperature_unit", strOptV (trim_text (temperature.get "unit"))),
     ("thresholds", jsonbOptV (to_jsonb (data.get "thresholds"))),
     ("metadata", jsonbOptV (to_jsonb (data.get "inspectionMetadata"))),
     ("confidence", data.get "confidence"),
     ("raw_text", data.get "rawText"),
     ("source_doc_id", uuidOptV source_doc_uuid),
     ("org_id", intOptV ctx.org_id)] s
  let s2 ← insert_inspection_samples ir.1 ctx.org_id (data.get "samples").asList ir.2
  let s3 ← insert_inspection_defects ir.1 ctx.org_id (data.get "defects").asList s2
  let s4 ← insert_inspection_photos ir.1 ctx.org_id (data.get "photos").asList s3
  pure ([("openai.inspections", ir.1)], s4)

/-- Line-item loop of `_insert_cold_storage_invoice` (`enumerate` starts
at 1): each entry must carry a truthy trimmed `Item` and `Description`,
otherwise a `ValueError` aborts the whole run. -/
def insert_cold_lines (invoice_id : Nat) : Nat → List Value → DB → Except PyError DB
  | _, [], s => .ok s
  | index, line :: rest, s =>
    let item_value := trim_text (line.get "Item")
    let description := trim_text (line.get "Description")
    if ¬ optStrTruthy item_value || ¬ optStrTruthy description then
      .error (.valueError "cold_storage_invoice LineItems entries require Item and Description.")
    else
      match parse_date (line.get "ActivityDate") with
      | .error e => .error e
      | .ok activityP =>
        match to_decimal (line.get "Rate") with
        | .error e => .error e
        | .ok rate =>
          match to_decimal (line.get "Quantity") with
          | .error e => .error e
          | .ok quantity =>
            match to_decimal (line.get "Amount") with
            | .error e => .error e
            | .ok amount =>
              let s1 := (insert_and_return "openai.cold_storage_invoice_items"
                [("invoice_id", .uuid invoice_id),
                 ("line_number", .str (toString index)),
                 ("item", strOptV item_value),
                 ("description", strOptV description),
                 ("activity_date", dateOptV activityP.1),
                 ("activity_date_raw", strOptV activityP.2),
                 ("rate", decOptV rate),
                 ("quantity", decOptV quantity),
                 ("amount", decOptV amount)] s).2
              insert_cold_lines invoice_id (index + 1) rest s1

/-- Embedding of `_insert_cold_storage_invoice`. -/
def insert_cold_storage_invoice (extraction : Value) (ctx : InsertContext) (s : DB) :
    Except PyError (List (String × Nat) × DB) :=
  let data := (extraction.get "data").orDict
  let header := (data.get "InvoiceHeader").orDict
  let vendor := (data.get "Vendor").orDict
  let bill_to := (data.get "BillTo").orDict
  let reference := (data.get "PO_Reference_Structure").orDict
  let summary := (data.get "FinancialSummary").orDict
  match require_document_id ctx with
  | .error e => .error e
  | .ok document_id =>
    let invoice_number := trim_text (header.get "InvoiceNumber")
    if ¬ optStrTruthy invoice_number then
      .error (.valueError "cold_storage_invoice missing InvoiceHeader.InvoiceNumber.")
    else
      match parse_date (header.get "InvoiceDate") with
      | .error e => .error e
      | .ok invoiceP =>
        match parse_date (header.get "DueDate") with
        | .error e => .error e
        | .ok dueP =>
          match to_decimal (summary.get "Sub_total") with
          | .error e => .error e
          | .ok sub_total =>
            match to_decimal (summary.get "PaymentCredits") with
            | .error e => .error e
            | .ok payment_credits =>
              match to_decimal (summary.get "Total") with
              | .error e => .error e
              | .ok total_amount =>
                match to_uuid (ctxSourceDocV ctx) with
                | .error e => .error e
                | .ok source_doc_uuid =>
                  let ir := insert_and_return "openai.cold_storage_invoices"
                    [("document_id", .uuid document_id),
                     ("invoice_type", .str (orElseStr (trim_text (data.get "InvoiceType")) "Cold Storage/Logistics")),
                     ("invoice_number", strOptV invoice_number),
                     ("invoice_date", dateOptV invoiceP.1),
                     ("invoice_date_raw", strOptV invoiceP.2),
                     ("due_date", dateOptV dueP.1),
                     ("due_date_raw", strOptV dueP.2),
                     ("terms", strOptV (trim_text (header.get "Terms"))),
                     ("memo", strOptV (trim_text (header.get "Memo"))),
                     ("vendor_name", strOptV (trim_text (vendor.get "Name"))),
                     ("vendor_address", strOptV (trim_text (vendor.get "Address"))),
                     ("bill_to_name", strOptV (trim_text (bill_to.get "Name"))),
                     ("bill_to_address", strOptV (trim_text (bill_to.get "Address"))),
                     ("po_ref_original", strOptV (trim_text (reference.get "OriginalString"))),
                     ("po_ref_reference_number", strOptV (trim_text (reference.get "ReferenceNumber"))),
                     ("po_ref_component_1_ref", strOptV (trim_text (reference.get "Component_1_REF"))),
                     ("po_ref_component_2_po", strOptV (trim_text (reference.get "Component_2_PO"))),
                     ("po_ref_component_3_job", strOptV (trim_text (reference.get "Component_3_JobOrLoad"))),
                     ("sub_total", decOptV sub_total),
                     ("payment_credits", decOptV payment_credits),
                     ("total_amount", decOptV total_amount),
                     ("raw_text", extraction.get "text"),
                     ("metadata", jsonbOptV (to_jsonb (data.get "Metadata"))),
                     ("source_doc_id", uuidOptV source_doc_uuid),
                     ("org_id", intOptV ctx.org_id)] s
                  match insert_cold_lines ir.1 1 (data.get "LineItems").asList ir.2 with
                  | .error e => .error e
                  | .ok s2 => .ok ([("openai.cold_storage_invoices", ir.1)], s2)

/-- Defect loop of a `_insert_usda_inspection` lot. -/
def insert_usda_lot_defects (lot_record_id : Nat) :
    List Value → DB → Except PyError DB
  | [], s => .ok s
  | defect :: rest, s => do
    let defect_name := trim_text (defect.get "defect_name")
    let damage_range := trim_text (defect.get "damage_percentage_range")
    let damageP ← parse_percentage_range (strOptV damage_range)
    let damage_count ← to_int (defect.get "damage_count")
    let serious ← to_int (defect.get "serious_damage_count")
    let very_serious ← to_int (defect.get "very_serious_damage_count")
    let s1 := (insert_and_return "openai.usda_lot_defects"
      [("lot_id", .uuid lot_record_id),
       ("defect_name", .str (orElseStr defect_name "Unknown")),
       ("damage_percentage_range", strOptV damage_range),
       ("damage_count", intOptV damage_count),
       ("serious_damage_count", intOptV serious),
       ("very_serious_damage_count", intOptV very_serious),
       ("damage_pct_low", decOptV damageP.1),
       ("damage_pct_high", decOptV damageP.2)] s).2
    insert_usda_lot_defects lot_record_id rest s1

/-- Lot loop of `_insert_usda_inspection`. -/
def insert_usda_lots (inspection_id : Nat) :
    List Value → DB → Except PyError DB
  | [], s => .ok s
  | lot :: rest, s => do
    let lot_id_value := trim_text (lot.get "lot_id")
    let product_name := trim_text (lot.get "product_name")
    let inspection_type := trim_text (lot.get "inspection_type")
    let missing :=
      (if ¬ optStrTruthy lot_id_value then ["lot_id"] else [])
        ++ (if ¬ optStrTruthy product_name then ["product_name"] else [])
        ++ (if ¬ optStrTruthy inspection_type then ["inspection_type"] else [])
    if missing ≠ [] then
      .error (.valueError ("usda_inspection lot missing required fields: "
        ++ String.intercalate ", " missing ++ "."))
    else do
      let number_of_containers ← to_decimal (lot.get "number_of_containers")
      let temp_min ← to_decimal (lot.get "temp_min_f")
      let temp_max ← to_decimal (lot.get "temp_max_f")
      let ir := insert_and_return "openai.usda_inspection_lots"
        [("inspection_id", .uuid inspection_id),
         ("lot_id", strOptV lot_id_value),
         ("product_name", strOptV product_name),
         ("number_of_containers", decOptV number_of_containers),
         ("brand", strOptV (trim_text (lot.get "brand"))),
         ("markings", strOptV (trim_text (lot.get "markings"))),
         ("product_notes", strOptV (trim_text (lot.get "product_notes"))),
         ("average_temperature_f", strOptV (trim_text (lot.get "average_temperature_f"))),
         ("live_insect_presence", strOptV (trim_text (lot.get "live_insect_presence"))),
         ("inspection_type", strOptV inspection_type),
         ("final_grade", strOptV (trim_text (lot.get "final_grade"))),
         ("temp_min_f", decOptV temp_min),
         ("temp_max_f", decOptV temp_max)] s
      let s2 ← insert_usda_lot_defects ir.1 (lot.get "defect_summary").asList ir.2
      insert_usda_lots inspection_id rest s2

/-- Embedding of `_insert_usda_inspection`. -/
def insert_usda_inspection (extraction : Value) (ctx : InsertContext) (s : DB) :
    Except PyError (List (String × Nat) × DB) := do
  let data := (extraction.get "data").orDict
  let logistics := (data.get "logistics_and_parties").orDict
  let inspection_event := (data.get "inspection_event").orDict
  let lots_inspected := (data.get "lots_inspected").asList
  let document_id ← require_document_id ctx
  let certificate_id := trim_text (data.get "certificate_id")
  let applicant := trim_text (logistics.get "applicant")
  let inspection_site := trim_text (inspection_event.get "inspection_site")
  let missing :=
    (if ¬ optStrTruthy certificate_id then ["certificate_id"] else [])
      ++ (if ¬ optStrTruthy applicant then ["applicant"] else [])
      ++ (if ¬ optStrTruthy inspection_site then ["inspection_site"] else [])
  if missing ≠ [] then
    .error (.valueError ("usda_inspection missing required fields: "
      ++ String.intercalate ", " missing ++ "."))
  else do
    let requestedP ← parse_timestamp (inspection_event.get "requested_datetime")
    let startedP ← parse_timestamp (inspection_event.get "started_datetime")
    let completedP ← parse_timestamp (inspection_event.get "completed_datetime")
    let estimated_fee ← to_decimal (inspection_event.get "estimated_fee")
    let source_doc_uuid ← to_uuid (ctxSourceDocV ctx)
    let ir := insert_and_return "openai.usda_inspections"
      [("document_id", .uuid document_id),
       ("certificate_id", strOptV certificate_id),
       ("report_id", strOptV (trim_text (data.get "report_id"))),
       ("online_access_password", strOptV (trim_text (data.get "online_access_password"))),
       ("applicant", strOptV applicant),
       ("applicant_city", strOptV (trim_text (logistics.get "applicant_city"))),
       ("shipper", strOptV (trim_text (logistics.get "shipper"))),
       ("shipper_city", strOptV (trim_text (logistics.get "shipper_city"))),
       ("carrier_or_lot_id", strOptV (trim_text (logistics.get "carrier_or_lot_id"))),
       ("loading_status", strOptV (trim_text (logistics.get "loading_status"))),
       ("origin_country_code", strOptV (trim_text (logistics.get "origin_country_code"))),
       ("market_office", strOptV (trim_text (inspection_event.get "market_office"))),
       ("inspection_site", strOptV inspection_site),
       ("requested_at", dtOptV requestedP.1),
       ("requested_at_raw", strOptV requestedP.2),
       ("started_at", dtOptV startedP.1),
       ("started_at_raw", strOptV startedP.2),
       ("completed_at", dtOptV completedP.1),
       ("completed_at_raw", strOptV completedP.2),
       ("inspector_signature_id", strOptV (trim_text (inspection_event.get "inspector_signature_id"))),
       ("estimated_fee", decOptV estimated_fee),
       ("raw_text", extraction.get "text"),
       ("metadata", jsonbOptV (to_jsonb (data.get "metadata"))),
       ("source_doc_id", uuidOptV source_doc_uuid),
       ("org_id", intOptV ctx.org_id)] s
    let s2 ← insert_usda_lots ir.1 lots_inspected ir.2
    pure ([("openai.usda_inspections", ir.1)], s2)

-- Transactional writer (supabase_store.py lines 272-355)

/-- The `ctx.source_doc_id = ctx.source_doc_id or str(document_id)`
assignment. -/
def fillSourceDocId (ctx : InsertContext) (document_id : Nat) : InsertContext :=
  { ctx with
    document_id := Option.some document_id,
    source_doc_id :=
      if optStrTruthy ctx.source_doc_id then ctx.source_doc_id
      else Option.some (uuidStr document_id) }

/-- Mapper dispatch of `insert_extraction_result` on the extraction type
tag; the `fallback` branch only flips the document status to `failed`. -/
def dispatch_extraction (extraction_type extraction : Value) (document_id : Nat)
    (ctx : InsertContext) (s : DB) : Except PyError (List (String × Nat) × DB) :=
  if valueEqStr extraction_type "invoice" then insert_invoice extraction ctx s
  else if valueEqStr extraction_type "bol" then insert_bol extraction ctx s
  else if valueEqStr extraction_type "purchase_order" then insert_purchase_order extraction ctx s
  else if valueEqStr extraction_type "inspection" then insert_inspection extraction ctx s
  else if valueEqStr extraction_type "cold_storage_invoice" then insert_cold_storage_invoice extraction ctx s
  else if valueEqStr extraction_type "usda_inspection" then insert_usda_inspection extraction ctx s
  else if valueEqStr extraction_type "fallback" then
    match set_document_status s document_id "failed" with
    | .error e => .error e
    | .ok s2 => .ok ([], s2)
  else .error (.valueError ("Unsupported extraction type: " ++ extraction_type.pyStr))

/-- Snapshot write at the end of `insert_extraction_result`.  The `try`
block around it cannot fail in the embedding (serialization is total), so
the best-effort catch has no visible effect; `updated_at` renders the
abstract clock. -/
def write_document_snapshot (document_id : Nat) (extraction_type classification extraction : Value)
    (inserted : List (String × Nat)) (s : DB) : DB :=
  let snapshot : Value := .dict
    [("document_id", .str (uuidStr document_id)),
     ("type", extraction_type),
     ("classification", classification.orDict),
     ("extraction", extraction.orDict),
     ("inserted_ids", .dict (inserted.map (fun p => (p.1, Value.str (uuidStr p.2))))),
     ("updated_at", .str ("clock-" ++ toString s.clock))]
  { s with documents := s.documents.map
                (fun d => if d.id = document_id then { d with document_data := Option.some snapshot } else d) }

/-- Body of `insert_extraction_result`, before transaction handling. -/
def insert_extraction_result_body (workflow_result : Value) (source_ctx : InsertContext)
    (s0 : DB) : Except PyError (List (String × Nat) × DB) :=
  let extraction := (workflow_result.get "extraction").orDict
  let classification := (workflow_result.get "classification").orDict
  let extraction_type := extraction.get "type"
  let label := classification.get "label"
  if ¬ extraction_type.isTruthy then .error (.valueError "Extraction result missing 'type'.")
  else if ¬ label.isTruthy then .error (.valueError "Classification result missing 'label'.")
  else
    match insert_or_get_document classification source_ctx s0 with
    | .error e => .error e
    | .ok (document_id, ctx1, s1) =>
      let ctx2 := fillSourceDocId ctx1 document_id
      let isFallback := valueEqStr extraction_type "fallback"
      match (if ¬ isFallback then set_document_status s1 document_id "extracted" else .ok s1) with
      | .error e => .error e
      | .ok s2 =>
        match dispatch_extraction extraction_type extraction document_id ctx2 s2 with
        | .error e => .error e
        | .ok (more, s3) =>
          let inserted := ("openai.documents", document_id) :: more
          match (if ¬ isFallback then set_document_status s3 document_id "stored" else .ok s3) with
          | .error e => .error e
          | .ok s4 =>
            .ok (inserted, write_document_snapshot document_id extraction_type classification extraction inserted s4)

/-- Embedding of `insert_extraction_result`: the body runs in one
transaction, so a raised error leaves the store at the pre-call state. -/
def insert_extraction_result (workflow_result : Value) (source_ctx : InsertContext)
    (s : DB) : Except PyError (List (String × Nat)) × DB :=
  match insert_extraction_result_body workflow_result source_ctx s with
  | .ok (ids, s2) => (.ok ids, s2)
  | .error e => (.error e, s)

-- Bundle manager (supabase_store.py lines 358-697)

/-- Embedding of `_get_document_row`. -/
def get_document_row (s : DB) (document_id : Nat) : Except PyError DocumentRow :=
  match s.documents.find? (fun d => d.id == document_id) with
  | Option.some row => .ok row
  | Option.none => .error (.valueError "Document not found.")

/-- First row of a generically-stored table with the given `document_id`
column (the `where document_id = %s` fetches). -/
def entityForDocument (s : DB) (table : String) (document_id : Nat) : Option EntityRow :=
  s.entity_rows.find? (fun r =>
    r.table == table &&
      (match r.col "document_id" with
       | .uuid n => n == document_id
       | _ => false))

/-- Embedding of `_get_po_number`. -/
def get_po_number (s : DB) (document_id : Nat) : Option String :=
  match entityForDocument s "openai.purchase_orders" document_id with
  | Option.some po => trim_text (po.col "po_number")
  | Option.none => Option.none

/-- Embedding of `_get_invoice_number`: the `openai.invoices` row wins when
it has a truthy trimmed number, otherwise the cold-storage row is
consulted. -/
def get_invoice_number (s : DB) (document_id : Nat) : Option String :=
  let fromInvoices :=
    match entityForDocument s "openai.invoices" document_id with
    | Option.some inv => trim_text (inv.col "invoice_number")
    | Option.none => Option.none
  match fromInvoices with
  | Option.some t => Option.some t
  | Option.none =>
    match entityForDocument s "openai.cold_storage_invoices" document_id with
    | Option.some cold => trim_text (cold.col "invoice_number")
    | Option.none => Option.none

/-- Embedding of `_get_document_snapshot`. -/
def get_document_snapshot (s : DB) (document_id : Nat) : Except PyError Value :=
  match get_document_row s document_id with
  | .error e => .error e
  | .ok row =>
    let fallbackSnap : Value := .dict
      [("document_id", .str (uuidStr document_id)),
       ("type", .str row.classification_label)]
    match row.document_data with
    | Option.none => .ok fallbackSnap
    | Option.some snapshot =>
      if ¬ snapshot.isTruthy then .ok fallbackSnap
      else if (snapshot.get "document_id").isTruthy then .ok snapshot
      else .ok (dictSet snapshot "document_id" (.str (uuidStr document_id)))

/-- Embedding of `_update_document_assigned_bundles`.  The
`assigned_bundles` column is only ever written by this function as an array
of uuid strings, so the `isinstance` re-filtering of the source is the
identity here. -/
def update_document_assigned_bundles (s : DB) (document_id : Nat)
    (add_bundle_id remove_bundle_id : Option Nat) : Except PyError DB :=
  match get_document_row s document_id with
  | .error e => .error e
  | .ok row =>
    let bundle_ids := row.assigned_bundles
    let added :=
      match add_bundle_id with
      | Option.some b => if ¬ bundle_ids.contains (uuidStr b) then bundle_ids ++ [uuidStr b] else bundle_ids
      | Option.none => bundle_ids
    let removed :=
      match remove_bundle_id with
      | Option.some b => added.filter (fun x => x ≠ uuidStr b)
      | Option.none => added
    .ok { s with documents := s.documents.map
                  (fun d => if d.id = document_id then { d with assigned_bundles := removed } else d) }

/-- Embedding of `_append_bundle_snapshot`: existing entries for the same
document id (and any non-dict entries) are dropped before the new snapshot
is appended, and `updated_at` is refreshed. -/
def append_bundle_snapshot (s : DB) (bundle_id : Nat) (doc_snapshot : Value) :
    Except PyError DB :=
  match s.bundles.find? (fun b => b.id == bundle_id) with
  | Option.none => .error (.valueError "Bundle not found.")
  | Option.some row =>
    let doc_id_str :=
      if doc_snapshot.isTruthy then Option.some (doc_snapshot.get "document_id").pyStr
      else Option.none
    let filtered := row.documents_snapshot.filter
      (fun x => x.isDict && decide (Option.some (x.get "document_id").pyStr ≠ doc_id_str))
    let arr := filtered ++ [doc_snapshot]
    .ok { s with bundles := s.bundles.map
                  (fun b => if b.id = bundle_id then
                    { b with documents_snapshot := arr, updated_at := s.clock } else b) }

/-- Embedding of `_remove_bundle_snapshot`: silently does nothing when the
bundle row is gone; otherwise drops the document's dict entries and
refreshes `updated_at`. -/
def remove_bundle_snapshot (s : DB) (bundle_id document_id : Nat) : DB :=
  match s.bundles.find? (fun b => b.id == bundle_id) with
  | Option.none => s
  | Option.some row =>
    let filtered := row.documents_snapshot.filter
      (fun x => ¬ (x.isDict && (x.get "document_id").pyStr == uuidStr document_id))
    { s with bundles := s.bundles.map
              (fun b => if b.id = bundle_id then
                { b with documents_snapshot := filtered, updated_at := s.clock } else b) }

/-- Embedding of `_build_bundle_key_fields`. -/
def build_bundle_key_fields (s : DB) (document_id : Nat) (doc_type : String) :
    Option String × Option String × Option Value :=
  if doc_type = "purchase_order" then
    let key_po := get_po_number s document_id
    let summary :=
      match entityForDocument s "openai.purchase_orders" document_id with
      | Option.some po => Option.some (Value.dict
          [("amount", po.col "amount"),
           ("currency", po.col "currency"),
           ("subtotal", po.col "subtotal"),
           ("tax_total", po.col "tax_total"),
           ("freight_total", po.col "freight_total"),
           ("other_total", po.col "other_total"),
           ("grand_total", po.col "grand_total")])
      | Option.none => Option.none
    (key_po, Option.none, summary)
  else if doc_type = "invoice" ∨ doc_type = "cold_storage_invoice" then
    let key_invoice := get_invoice_number s document_id
    let summary :=
      match entityForDocument s "openai.invoices" document_id with
      | Option.some inv => Option.some (Value.dict
          [("subtotal", inv.col "subtotal"),
           ("tax_total", inv.col "tax_total"),
           ("freight_total", inv.col "freight_total"),
           ("other_total", inv.col "other_total"),
           ("grand_total", inv.col "grand_total"),
           ("currency", inv.col "currency")])
      | Option.none =>
        match entityForDocument s "openai.cold_storage_invoices" document_id with
        | Option.some cold => Option.some (Value.dict [("grand_total", cold.col "total_amount")])
        | Option.none => Option.none
    (Option.none, key_invoice, summary)
  else (Option.none, Option.none, Option.none)

/-- Join-row insert with `on conflict do nothing`; the conflict target is
one join row per (bundle, document) pair, modelled from the spec (join
entity of §3). -/
def insert_bundle_document (s : DB) (bundle_id document_id : Nat) (doc_type : String)
    (doc_snapshot : Value) : DB :=
  if s.bundle_documents.any (fun bd => bd.bundle_id == bundle_id && bd.document_id == document_id) then s
  else { s with bundle_documents := s.bundle_documents
          ++ [{ bundle_id := bundle_id, document_id := document_id,
                doc_type := doc_type, document_snapshot := doc_snapshot }] }

/-- Body of `create_bundle_for_document`. -/
def create_bundle_body (document_id : Nat) (org_id : Int) (s : DB) :
    Except PyError (Nat × DB) :=
  match get_document_row s document_id with
  | .error e => .error e
  | .ok doc =>
    if doc.org_id ≠ Option.some org_id then .error (.valueError "Document org does not match.")
    else
      let doc_type := normalize_document_label (.str doc.classification_label)
      if ¬ (["purchase_order", "invoice", "cold_storage_invoice"].contains doc_type) then
        .error (.valueError "Only purchase_order or invoice documents can create a new bundle.")
      else
        let kf := build_bundle_key_fields s document_id doc_type
        if ¬ optStrTruthy kf.1 && ¬ optStrTruthy kf.2.1 then
          .error (.valueError "Cannot create bundle: missing PO number and Invoice number.")
        else
          let bundle_id := s.next_id
          let row : BundleRow :=
            { id := bundle_id, org_id := org_id, primary_document_id := document_id,
              key_po_number := kf.1, key_invoice_number := kf.2.1,
              key_summary :=
                (match kf.2.2 with
                 | Option.some sm => if sm.isTruthy then to_jsonb sm else Option.none
                 | Option.none => Option.none),
              documents_snapshot := [], created_at := s.clock, updated_at := s.clock }
          let s1 := { s with bundles := s.bundles ++ [row], next_id := s.next_id + 1 }
          match get_document_snapshot s1 document_id with
          | .error e => .error e
          | .ok doc_snapshot =>
            let s2 := insert_bundle_document s1 bundle_id document_id doc_type doc_snapshot
            match update_document_assigned_bundles s2 document_id (Option.some bundle_id) Option.none with
            | .error e => .error e
            | .ok s3 =>
              match append_bundle_snapshot s3 bundle_id doc_snapshot with
              | .error e => .error e
              | .ok s4 => .ok (bundle_id, s4)

/-- Embedding of `create_bundle_for_document` with transaction rollback. -/
def create_bundle_for_document (document_id : Nat) (org_id : Int) (s : DB) :
    Except PyError Nat × DB :=
  match create_bundle_body document_id org_id s with
  | .ok (bid, s2) => (.ok bid, s2)
  | .error e => (.error e, s)

/-- Body of `add_document_to_bundle`: tenant check, then the
single-bundle-membership guard for purchase orders and invoices (any
existing join row for the document rejects), then join row, assigned-set
and snapshot updates. -/
def add_document_body (bundle_id document_id : Nat) (s : DB) :
    Except PyError (Unit × DB) :=
  match s.bundles.find? (fun b => b.id == bundle_id) with
  | Option.none => .error (.valueError "Bundle not found.")
  | Option.some bundle =>
    match get_document_row s document_id with
    | .error e => .error e
    | .ok doc =>
      if doc.org_id ≠ Option.some bundle.org_id then
        .error (.valueError "Document org does not match bundle org.")
      else
        let doc_type := normalize_document_label (.str doc.classification_label)
        if ["purchase_order", "invoice"].contains doc_type
            && s.bundle_documents.any (fun bd => bd.document_id == document_id) then
          .error (.valueError "This document type can only belong to one bundle.")
        else
          match get_document_snapshot s document_id with
          | .error e => .error e
          | .ok doc_snapshot =>
            let s1 := insert_bundle_document s bundle_id document_id doc_type doc_snapshot
            match update_document_assigned_bundles s1 document_id (Option.some bundle_id) Option.none with
            | .error e => .error e
            | .ok s2 =>
              match append_bundle_snapshot s2 bundle_id doc_snapshot with
              | .error e => .error e
              | .ok s3 => .ok ((), s3)

/-- Embedding of `add_document_to_bundle` with transaction rollback. -/
def add_document_to_bundle (bundle_id document_id : Nat) (s : DB) :
    Except PyError Unit × DB :=
  match add_document_body bundle_id document_id s with
  | .ok (_, s2) => (.ok (), s2)
  | .error e => (.error e, s)

/-- Body of `remove_document_from_bundle`: join-row delete, assigned-set
and snapshot updates, then bundle deletion when no member remains or an
`updated_at` refresh otherwise. -/
def remove_document_body (bundle_id document_id : Nat) (s : DB) :
    Except PyError (Unit × DB) :=
  let s1 := { s with bundle_documents := s.bundle_documents.filter
                      (fun bd => ¬ (bd.bundle_id == bundle_id && bd.document_id == document_id)) }
  match update_document_assigned_bundles s1 document_id Option.none (Option.some bundle_id) with
  | .error e => .error e
  | .ok s2 =>
    let s3 := remove_bundle_snapshot s2 bundle_id document_id
    let remaining := (s3.bundle_documents.filter (fun bd => bd.bundle_id == bundle_id)).length
    if remaining = 0 then
      .ok ((), { s3 with bundles := s3.bundles.filter (fun b => ¬ (b.id == bundle_id)) })
    else
      .ok ((), { s3 with bundles := s3.bundles.map (fun b => if b.id = bundle_id then { b with updated_at := s3.clock } else b) })

/-- Embedding of `remove_document_from_bundle` with transaction rollback. -/
def remove_document_from_bundle (bundle_id document_id : Nat) (s : DB) :
    Except PyError Unit × DB :=
  match remove_document_body bundle_id document_id s with
  | .ok (_, s2) => (.ok (), s2)
  | .error e => (.error e, s)

-- Concrete instances used by the closed theorems below

/-- A document row as left behind by a completed store run (used to build
concrete store states). -/
def docRowAt (id : Nat) (org : Int) (label : String) (bundles : List String) : DocumentRow :=
  { id := id, org_id := Option.some org, source_filename := Option.none,
    source_mime := Option.none, classification_label := label,
    classification_confidence := Option.none, classification_reasoning := Option.none,
    metadata := Option.none, status := "stored", assigned_bundles := bundles,
    document_data := Option.none }

/-- A bundle row keyed by a PO number. -/
def bundleRowAt (id : Nat) (org : Int) (primary : Nat) : BundleRow :=
  { id := id, org_id := org, primary_document_id := primary,
    key_po_number := Option.some "PO-1", key_invoice_number := Option.none,
    key_summary := Option.none, documents_snapshot := [], created_at := 0, updated_at := 0 }

/-- A join row with a minimal per-membership snapshot. -/
def joinRowAt (b d : Nat) (t : String) : BundleDocRow :=
  { bundle_id := b, document_id := d, doc_type := t,
    document_snapshot := .dict [("document_id", .str (uuidStr d))] }

/-- Workflow result of a cold-storage extraction whose single line item
carries an `Item` but no `Description`. -/
def wfColdMissingDescription : Value := .dict
  [("classification", .dict [("label", .str "cold_storage_invoice")]),
   ("extraction", .dict
     [("type", .str "cold_storage_invoice"),
      ("data", .dict
        [("InvoiceHeader", .dict [("InvoiceNumber", .str "CS-1")]),
         ("LineItems", .list [.dict [("Item", .str "Pallet storage")]])])])]

/-- Context carrying only a tenant id. -/
def ctxOrgOnly : InsertContext := { org_id := Option.some 1 }

/-- Workflow result of a fallback extraction. -/
def wfFallbackRun : Value := .dict
  [("classification", .dict [("label", .str "unknown")]),
   ("extraction", .dict [("type", .str "fallback"), ("text", .str "unreadable scan")])]

/-- Store with one document whose status is `stored`. -/
def dbStoredDoc : DB :=
  { DB.empty with documents := [docRowAt 1 1 "invoice" []], next_id := 2 }

/-- Store where the `bol` document 10 is already a member of bundle 1 and a
second bundle 2 exists in the same org. -/
def dbMultiBundle : DB :=
  { DB.empty with
    documents := [docRowAt 10 1 "bol" [uuidStr 1]],
    bundles := [bundleRowAt 1 1 10, bundleRowAt 2 1 10],
    bundle_documents := [joinRowAt 1 10 "bol"],
    next_id := 50, clock := 7 }

/-- Store where the `purchase_order` document 20 is already a member of
bundle 1 and a second bundle 2 exists in the same org (used for the C2
witness). -/
def dbPoConflict : DB :=
  { DB.empty with
    documents := [docRowAt 20 1 "purchase_order" [uuidStr 1]],
    bundles := [bundleRowAt 1 1 20, bundleRowAt 2 1 20],
    bundle_documents := [joinRowAt 1 20 "purchase_order"],
    next_id := 50, clock := 7 }

/-- Same membership-conflict situation for document 21, used to compare the
raised error against a validation error (C9). -/
def dbPoConflictB : DB :=
  { DB.empty with
    documents := [docRowAt 21 1 "purchase_order" [uuidStr 1]],
    bundles := [bundleRowAt 1 1 21, bundleRowAt 2 1 21],
    bundle_documents := [joinRowAt 1 21 "purchase_order"],
    next_id := 50, clock := 7 }

/-- Store with a two-member bundle 1 (documents 30 and 31) carrying
snapshot entries for both. -/
def dbTwoMemberBundle : DB :=
  { DB.empty with
    documents := [docRowAt 30 1 "invoice" [uuidStr 1], docRowAt 31 1 "bol" [uuidStr 1]],
    bundles := [{ bundleRowAt 1 1 30 with documents_snapshot :=
      [.dict [("document_id", .str (uuidStr 30))], .dict [("document_id", .str (uuidStr 31))]] }],
    bundle_documents := [joinRowAt 1 30 "invoice", joinRowAt 1 31 "bol"],
    next_id := 60, clock := 9 }

/-- Store with a single-member bundle 2 (document 32). -/
def dbOneMemberBundle : DB :=
  { DB.empty with
    documents := [docRowAt 32 1 "bol" [uuidStr 2]],
    bundles := [bundleRowAt 2 1 32],
    bundle_documents := [joinRowAt 2 32 "bol"],
    next_id := 70, clock := 11 }

/-- Store with a `purchase_order` document 40 that has no
`openai.purchase_orders` row, so no PO number or invoice number can be
found for it. -/
def dbPoNoKeys : DB :=
  { DB.empty with documents := [docRowAt 40 1 "purchase_order" []], next_id := 41 }

/-- Context already carrying a document id. -/
def ctxWithDoc : InsertContext := { org_id := Option.some 1, document_id := Option.some 5 }

/-- Inputs on which `_to_int` does not raise: every value except a
non-finite float and a string that `float()` parses to an infinity (the
`int()` call on such a float raises `OverflowError`, which the
`except ValueError` handler does not catch; NaN raises `ValueError`,
which it does catch). -/
def toIntDefined (v : Value) : Bool :=
  match v with
  | .float (.finite _) => true
  | .float _ => false
  | .str s =>
    (match floatOfStr (pyStrip s) with
     | .ok .inf => false
     | .ok .negInf => false
     | _ => true)
  | _ => true

-- Shared lemmas: error classification and totality of the normalizers

/-- Result classifier: accepts a success or an error of the given class. -/
def okOr (k : PyError → Bool) : Except PyError α → Bool
  | .ok _ => true
  | .error e => k e

/-- Whether a result is a raised error. -/
def isError : Except PyError α → Bool
  | .ok _ => false
  | .error _ => true

lemma parseTzOffset_kind (cs : List Char) :
    okOr PyError.isValueError (parseTzOffset cs) = true := by
  unfold parseTzOffset
  repeat' (first | split | dsimp only)
  all_goals rfl

lemma parseTzOffset_error_kind {cs : List Char} {e : PyError}
    (h : parseTzOffset cs = .error e) : e.isValueError = true := by
  have h2 := parseTzOffset_kind cs
  rw [h] at h2
  exact h2

lemma timeFromChars_kind (cs : List Char) :
    okOr PyError.isValueError (timeFromChars cs) = true := by
  unfold timeFromChars
  repeat' (first | split | dsimp only)
  all_goals first | rfl | (exact parseTzOffset_error_kind (by assumption))

lemma timeFromChars_error_kind {cs : List Char} {e : PyError}
    (h : timeFromChars cs = .error e) : e.isValueError = true := by
  have h2 := timeFromChars_kind cs
  rw [h] at h2
  exact h2

lemma dateFromIso_kind (t : String) :
    okOr PyError.isValueError (dateFromIso t) = true := by
  unfold dateFromIso
  repeat' (first | split | dsimp only)
  all_goals rfl

lemma dateFromIso_error_kind {t : String} {e : PyError}
    (h : dateFromIso t = .error e) : e.isValueError = true := by
  have h2 := dateFromIso_kind t
  rw [h] at h2
  exact h2

lemma datetimeFromIso_kind (t : String) :
    okOr PyError.isValueError (datetimeFromIso t) = true := by
  unfold datetimeFromIso
  repeat' (first | split | dsimp only)
  all_goals first
    | rfl
    | (exact dateFromIso_error_kind (by assumption))
    | (exact timeFromChars_error_kind (by assumption))

lemma datetimeFromIso_error_kind {t : String} {e : PyError}
    (h : datetimeFromIso t = .error e) : e.isValueError = true := by
  have h2 := datetimeFromIso_kind t
  rw [h] at h2
  exact h2

lemma floatOfStr_kind (t : String) :
    okOr PyError.isValueError (floatOfStr t) = true := by
  unfold floatOfStr
  repeat' (first | split | dsimp only)
  all_goals rfl

lemma floatOfStr_error_kind {t : String} {e : PyError}
    (h : floatOfStr t = .error e) : e.isValueError = true := by
  have h2 := floatOfStr_kind t
  rw [h] at h2
  exact h2

lemma decimalOfStr_kind (t : String) :
    okOr PyError.isInvalidOperation (decimalOfStr t) = true := by
  unfold decimalOfStr
  repeat' (first | split | dsimp only)
  all_goals rfl

lemma decimalOfStr_error_kind {t : String} {e : PyError}
    (h : decimalOfStr t = .error e) : e.isInvalidOperation = true := by
  have h2 := decimalOfStr_kind t
  rw [h] at h2
  exact h2

lemma uuidFromStr_kind (t : String) :
    okOr PyError.isValueError (uuidFromStr t) = true := by
  unfold uuidFromStr
  repeat' (first | split | dsimp only)
  all_goals rfl

lemma uuidFromStr_error_kind {t : String} {e : PyError}
    (h : uuidFromStr t = .error e) : e.isValueError = true := by
  have h2 := uuidFromStr_kind t
  rw [h] at h2
  exact h2

lemma to_decimal_total (v : Value) (hb : v.isBool = false) :
    (to_decimal v).isOk = true := by
  unfold to_decimal
  repeat' (first | split | dsimp only)
  all_goals first
    | rfl
    | (have hk := decimalOfStr_error_kind (by assumption); simp_all)
    | simp_all [Value.isBool]

lemma parse_date_total (v : Value) : (parse_date v).isOk = true := by
  unfold parse_date
  repeat' (first | split | dsimp only)
  all_goals first
    | rfl
    | (have hk := dateFromIso_error_kind (by assumption); simp_all)

lemma parse_timestamp_total (v : Value) : (parse_timestamp v).isOk = true := by
  unfold parse_timestamp
  repeat' (first | split | dsimp only)
  all_goals first
    | rfl
    | (have hk := dateFromIso_error_kind (by assumption); simp_all)
    | (have hk := datetimeFromIso_error_kind (by assumption); simp_all)

lemma to_uuid_total (v : Value) : (to_uuid v).isOk = true := by
  unfold to_uuid
  repeat' (first | split | dsimp only)
  all_goals first
    | rfl
    | (have hk := uuidFromStr_error_kind (by assumption); simp_all)

lemma insert_cold_lines_error (invoice_id index : Nat) (lines : List Value) (s : DB)
    (h : ∃ l ∈ lines, trim_text (l.get "Item") = Option.none
         ∨ trim_text (l.get "Description") = Option.none) :
    ∃ e, insert_cold_lines invoice_id index lines s = .error e := by
  induction lines generalizing index s with
  | nil => rcases h with ⟨l, hl, _⟩; cases hl
  | cons head rest ih =>
    rcases h with ⟨l, hl, hbad⟩
    rcases List.mem_cons.mp hl with rfl | hmem
    · refine ⟨PyError.valueError "cold_storage_invoice LineItems entries require Item and Description.", ?_⟩
      cases hbad with
      | inl hI => simp [insert_cold_lines, hI, optStrTruthy]
      | inr hD => simp [insert_cold_lines, hD, optStrTruthy]
    · unfold insert_cold_lines
      dsimp only
      split
      · exact ⟨_, rfl⟩
      · repeat' (first | split | dsimp only)
        all_goals first
          | exact ⟨_, rfl⟩
          | exact ih _ _ ⟨l, hmem, hbad⟩

lemma insert_cold_storage_invoice_error (extraction : Value) (ctx : InsertContext) (s : DB)
    (h : ∃ l ∈ (((extraction.get "data").orDict).get "LineItems").asList,
         trim_text (l.get "Item") = Option.none
         ∨ trim_text (l.get "Description") = Option.none) :
    ∃ e, insert_cold_storage_invoice extraction ctx s = .error e := by
  unfold insert_cold_storage_invoice
  repeat' (first | split | dsimp only)
  all_goals try exact ⟨_, rfl⟩
  all_goals
    (rename_i heq
     obtain ⟨e, he⟩ := insert_cold_lines_error _ _ _ _ h
     rw [he] at heq
     exact Except.noConfusion heq)

lemma insert_extraction_body_cold_error (wf : Value) (ctx : InsertContext) (s : DB)
    (het : (wf.get "extraction").orDict.get "type" = .str "cold_storage_invoice")
    (hlab : ((wf.get "classification").orDict.get "label").isTruthy = true)
    (hbad : ∃ l ∈ (((wf.get "extraction").orDict.get "data").orDict.get "LineItems").asList,
         trim_text (l.get "Item") = Option.none
         ∨ trim_text (l.get "Description") = Option.none) :
    ∃ e, insert_extraction_result_body wf ctx s = .error e := by
  unfold insert_extraction_result_body
  dsimp only
  rw [het, hlab]
  simp only [Value.isTruthy, decide_not, valueEqStr]
  norm_num
  cases hdoc : insert_or_get_document ((wf.get "classification").orDict) ctx s with
  | error e => exact ⟨e, by simp [hdoc]⟩
  | ok triple =>
    obtain ⟨did, ctx1, s1⟩ := triple
    simp only [hdoc]
    have hset : set_document_status s1 did "extracted"
        = .ok { s1 with
            documents := s1.documents.map
              (fun d => if d.id = did then { d with status := "extracted" } else d)
            status_log := s1.status_log ++ [(did, "extracted")] } := rfl
    rw [hset]
    unfold dispatch_extraction
    simp only [valueEqStr, String.reduceEq, if_false, if_true, reduceIte]
    obtain ⟨e, he⟩ := insert_cold_storage_invoice_error ((wf.get "extraction").orDict)
      (fillSourceDocId ctx1 did) _ hbad
    rw [he]
    exact ⟨e, rfl⟩

-- Claim theorems

/-- C1 (amended): a cold-storage payload containing a line-item entry whose
trimmed `Item` or `Description` is absent makes `insert_extraction_result`
raise, and the transaction rolls back to the pre-call store: no parent or
child rows remain, and, contrary to the original claim, no `failed` status
is written either (the document row and any status writes of the run are
rolled back with everything else; `failed` is only ever written for
`fallback` extractions). -/
theorem C1_cold_storage_invalid_child_rolls_back
    (workflow_result : Value) (ctx : InsertContext) (s : DB)
    (het : (workflow_result.get "extraction").orDict.get "type" = .str "cold_storage_invoice")
    (hlab : ((workflow_result.get "classification").orDict.get "label").isTruthy = true)
    (hbad : ∃ l ∈ (((workflow_result.get "extraction").orDict.get "data").orDict.get "LineItems").asList,
         trim_text (l.get "Item") = Option.none
         ∨ trim_text (l.get "Description") = Option.none) :
    isError (insert_extraction_result workflow_result ctx s).1 = true
      ∧ (insert_extraction_result workflow_result ctx s).2 = s := by
  obtain ⟨e, he⟩ := insert_extraction_body_cold_error workflow_result ctx s het hlab hbad
  constructor
  · simp [insert_extraction_result, he, isError]
  · simp [insert_extraction_result, he]

/-- C1 counterexample: on a concrete cold-storage payload whose single line
item has an `Item` but no `Description`, the operation raises and rolls
back, and the resulting store holds no document at all with status
`failed` — refuting the claim that the document's status is set to
`failed`. -/
theorem C1_counterexample_no_failed_status :
    isError (insert_extraction_result wfColdMissingDescription ctxOrgOnly DB.empty).1 = true
      ∧ (insert_extraction_result wfColdMissingDescription ctxOrgOnly DB.empty).2 = DB.empty
      ∧ (insert_extraction_result wfColdMissingDescription ctxOrgOnly DB.empty).2.documents.filter
          (fun d => d.status == "failed") = [] :=
  ⟨rfl, rfl, rfl⟩

/-- C1 witness: the amended theorem applied to the concrete
missing-description payload. -/
theorem C1_witness :
    isError (insert_extraction_result wfColdMissingDescription ctxOrgOnly DB.empty).1 = true
      ∧ (insert_extraction_result wfColdMissingDescription ctxOrgOnly DB.empty).2 = DB.empty :=
  C1_cold_storage_invalid_child_rolls_back wfColdMissingDescription ctxOrgOnly DB.empty rfl rfl
    ⟨Value.dict [("Item", Value.str "Pallet storage")], List.Mem.head _, Or.inr rfl⟩

/-- C2: a document whose normalized classification is `purchase_order` or
`invoice` that already has any join row is rejected by
`add_document_to_bundle` with the membership-conflict message before any
mutation (the committed store is the pre-call store), while a document of
another classification (here a `bol` already in bundle 1) is added to a
second bundle, holding join rows in both bundles afterwards. -/
theorem C2_single_bundle_membership :
    (∀ (bundle_id document_id : Nat) (s : DB) (bundle : BundleRow) (doc : DocumentRow),
      s.bundles.find? (fun b => b.id == bundle_id) = Option.some bundle →
      s.documents.find? (fun d => d.id == document_id) = Option.some doc →
      doc.org_id = Option.some bundle.org_id →
      (normalize_document_label (.str doc.classification_label) = "purchase_order"
        ∨ normalize_document_label (.str doc.classification_label) = "invoice") →
      s.bundle_documents.any (fun bd => bd.document_id == document_id) = true →
      add_document_to_bundle bundle_id document_id s
        = (.error (.valueError "This document type can only belong to one bundle."), s))
  ∧ ((add_document_to_bundle 2 10 dbMultiBundle).1 = .ok ()
      ∧ (add_document_to_bundle 2 10 dbMultiBundle).2.bundle_documents.any
          (fun bd => bd.bundle_id == 2 && bd.document_id == 10) = true
      ∧ (add_document_to_bundle 2 10 dbMultiBundle).2.bundle_documents.any
          (fun bd => bd.bundle_id == 1 && bd.document_id == 10) = true) := by
  constructor
  · intro bundle_id document_id s bundle doc hb hd horg htype hmem
    unfold add_document_to_bundle add_document_body get_document_row
    rw [hb, hd]
    dsimp only
    rw [horg]
    rcases htype with h | h <;>
      simp [h, hmem]
  · exact ⟨rfl, rfl, rfl⟩

/-- C2 witness: the conflict half of the theorem applied to a concrete
purchase-order document already in bundle 1. -/
theorem C2_witness :
    add_document_to_bundle 2 20 dbPoConflict
      = (.error (.valueError "This document type can only belong to one bundle."), dbPoConflict) :=
  C2_single_bundle_membership.1 2 20 dbPoConflict (bundleRowAt 2 1 20)
    (docRowAt 20 1 "purchase_order" [uuidStr 1]) rfl rfl rfl (Or.inl rfl) rfl

/-- C3 counterexample: with a document in status `stored`, requesting the
backward transition to `classified` is accepted and written, refuting the
claim that such transitions are rejected as errors. -/
theorem C3_counterexample_backward_transition_accepted :
    ∃ s', set_document_status dbStoredDoc 1 "classified" = .ok s'
      ∧ s'.documents.map (fun d => d.status) = ["classified"] :=
  ⟨_, rfl, rfl⟩

/-- C3 (amended): `_set_document_status` validates the requested value
against the closed status enum only — a value outside the enum raises, and
any value inside the enum is written to the matching document regardless of
its current status; no transition checking is performed. -/
theorem C3_status_enum_validation_only (s : DB) (document_id : Nat) (st : String) :
    (DOCUMENT_STATUS_VALUES.contains st = true →
      ∃ s', set_document_status s document_id st = .ok s'
        ∧ ∀ d ∈ s'.documents, d.id = document_id → d.status = st)
  ∧ (DOCUMENT_STATUS_VALUES.contains st = false →
      set_document_status s document_id st
        = .error (.valueError ("Invalid document status: " ++ st))) := by
  constructor
  · intro hv
    refine ⟨{ s with
        documents := s.documents.map
          (fun d => if d.id = document_id then { d with status := st } else d)
        status_log := s.status_log ++ [(document_id, st)] }, ?_, ?_⟩
    · have hv2 : st ∈ DOCUMENT_STATUS_VALUES := by simpa using hv
      simp [set_document_status, ensure_document_status, hv2]
    · intro d hd hid
      rcases List.mem_map.mp hd with ⟨a, _, hfa⟩
      by_cases hai : a.id = document_id
      · rw [← hfa]
        simp [hai]
      · rw [← hfa] at hid
        simp [hai] at hid
  · intro hv
    have hv2 : st ∉ DOCUMENT_STATUS_VALUES := by simpa using hv
    simp [set_document_status, ensure_document_status, hv2]

/-- C3 witness: the amended theorem applied at a valid write (`failed`
onto a `stored` document) and at an invalid value (`archived`). -/
theorem C3_witness :
    (∃ s', set_document_status dbStoredDoc 1 "failed" = .ok s'
      ∧ ∀ d ∈ s'.documents, d.id = 1 → d.status = "failed")
  ∧ set_document_status dbStoredDoc 1 "archived"
      = .error (.valueError ("Invalid document status: " ++ "archived")) :=
  ⟨(C3_status_enum_validation_only dbStoredDoc 1 "failed").1 rfl,
   (C3_status_enum_validation_only dbStoredDoc 1 "archived").2 rfl⟩

/-- C4: with the bundle and document rows present, removing a document from
a bundle succeeds; when no member remains after the join-row delete the
bundle row itself is deleted (no bundle with that id survives), and when
members remain the bundle row survives with `updated_at` refreshed to the
current clock and the document's dict entries removed from
`documents_snapshot`. -/
theorem C4_bundle_auto_cleanup (bundle_id document_id : Nat) (s : DB)
    (b : BundleRow) (doc : DocumentRow)
    (hb : s.bundles.find? (fun x => x.id == bundle_id) = Option.some b)
    (hd : s.documents.find? (fun x => x.id == document_id) = Option.some doc) :
    ((s.bundle_documents.filter
        (fun bd => ¬ (bd.bundle_id == bundle_id && bd.document_id == document_id))).filter
        (fun bd => bd.bundle_id == bundle_id) = [] →
      (remove_document_from_bundle bundle_id document_id s).1 = .ok ()
        ∧ ∀ b' ∈ (remove_document_from_bundle bundle_id document_id s).2.bundles, b'.id ≠ bundle_id)
  ∧ ((s.bundle_documents.filter
        (fun bd => ¬ (bd.bundle_id == bundle_id && bd.document_id == document_id))).filter
        (fun bd => bd.bundle_id == bundle_id) ≠ [] →
      (remove_document_from_bundle bundle_id document_id s).1 = .ok ()
        ∧ ∃ b' ∈ (remove_document_from_bundle bundle_id document_id s).2.bundles,
            b'.id = bundle_id ∧ b'.updated_at = s.clock
            ∧ b'.documents_snapshot = b.documents_snapshot.filter
                (fun x => ¬ (x.isDict && (x.get "document_id").pyStr == uuidStr document_id))) := by
  have hbid : b.id = bundle_id := by
    have := List.find?_some hb
    simpa using this
  have hbmem : b ∈ s.bundles := List.mem_of_find?_eq_some hb
  constructor
  · intro h0
    simp only [remove_document_from_bundle, remove_document_body,
      update_document_assigned_bundles, get_document_row, remove_bundle_snapshot,
      hd, hb, h0]
    constructor
    · rfl
    · intro b' hmem'
      have := List.of_mem_filter hmem'
      simpa using this
  · intro h0
    have hlen : ((s.bundle_documents.filter
        (fun bd => ¬ (bd.bundle_id == bundle_id && bd.document_id == document_id))).filter
        (fun bd => bd.bundle_id == bundle_id)).length ≠ 0 := by
      simpa using h0
    simp only [remove_document_from_bundle, remove_document_body,
      update_document_assigned_bundles, get_document_row, remove_bundle_snapshot,
      hd, hb]
    rw [if_neg hlen]
    constructor
    · rfl
    · refine ⟨_, List.mem_map_of_mem _ (List.mem_map_of_mem _ hbmem), ?_, ?_, ?_⟩
      · simp [hbid]
      · simp [hbid]
      · simp [hbid]

/-- C4 witness: the last-member half applied to a one-member bundle and the
non-last half applied to a two-member bundle. -/
theorem C4_witness :
    ((remove_document_from_bundle 2 32 dbOneMemberBundle).1 = .ok ()
      ∧ ∀ b' ∈ (remove_document_from_bundle 2 32 dbOneMemberBundle).2.bundles, b'.id ≠ 2)
  ∧ ((remove_document_from_bundle 1 31 dbTwoMemberBundle).1 = .ok ()
      ∧ ∃ b' ∈ (remove_document_from_bundle 1 31 dbTwoMemberBundle).2.bundles,
          b'.id = 1 ∧ b'.updated_at = dbTwoMemberBundle.clock
          ∧ b'.documents_snapshot
            = ({ bundleRowAt 1 1 30 with documents_snapshot :=
                  [.dict [("document_id", .str (uuidStr 30))],
                   .dict [("document_id", .str (uuidStr 31))]] } : BundleRow).documents_snapshot.filter
                (fun x => ¬ (x.isDict && (x.get "document_id").pyStr == uuidStr 31))) :=
  ⟨(C4_bundle_auto_cleanup 2 32 dbOneMemberBundle (bundleRowAt 2 1 32)
      (docRowAt 32 1 "bol" [uuidStr 2]) rfl rfl).1 rfl,
   (C4_bundle_auto_cleanup 1 31 dbTwoMemberBundle
      ({ bundleRowAt 1 1 30 with documents_snapshot :=
          [.dict [("document_id", .str (uuidStr 30))],
           .dict [("document_id", .str (uuidStr 31))]] })
      (docRowAt 31 1 "bol" [uuidStr 1]) rfl rfl).2 (fun h => List.noConfusion h)⟩

/-- C5 counterexample: for the unparseable input `"bad "` the date
normalizer keeps typed component absent but stores the *trimmed* text
`"bad"`, not the original string verbatim. -/
theorem C5_counterexample_raw_is_trimmed_not_verbatim :
    parse_date (.str "bad ") = .ok (Option.none, Option.some "bad")
      ∧ "bad" ≠ "bad " :=
  ⟨rfl, by decide⟩

/-- C5 (amended): for every string whose trimmed form is non-empty and
unparseable, the date and timestamp normalizers return an absent typed
component together with the whitespace-trimmed input as the raw component
(information up to surrounding whitespace is preserved, not the verbatim
original); non-string non-date values lose the raw component entirely. -/
theorem C5_unparseable_keeps_trimmed_raw (sIn : String) (h : pyStrip sIn ≠ "") :
    (isError (dateFromIso (pyStrip sIn)) = true →
      parse_date (.str sIn) = .ok (Option.none, Option.some (pyStrip sIn)))
  ∧ (isError (datetimeFromIso (normalizeZ (pyStrip sIn))) = true →
     isError (dateFromIso (pyStrip sIn)) = true →
      parse_timestamp (.str sIn) = .ok (Option.none, Option.some (pyStrip sIn)))
  ∧ (∀ n : Int, parse_date (.int n) = .ok (Option.none, Option.none)
      ∧ parse_timestamp (.int n) = .ok (Option.none, Option.none)) := by
  have hs : sIn ≠ "" := fun heq => h (by rw [heq]; rfl)
  refine ⟨?_, ?_, ?_⟩
  · intro h1
    cases hdf : dateFromIso (pyStrip sIn) with
    | ok d => rw [hdf] at h1; simp [isError] at h1
    | error e =>
      simp [parse_date, Value.isTruthy, hs, h, hdf, dateFromIso_error_kind hdf]
  · intro h1 h2
    cases hdt : datetimeFromIso (normalizeZ (pyStrip sIn)) with
    | ok d => rw [hdt] at h1; simp [isError] at h1
    | error e1 =>
      cases hdf : dateFromIso (pyStrip sIn) with
      | ok d => rw [hdf] at h2; simp [isError] at h2
      | error e2 =>
        simp [parse_timestamp, Value.isTruthy, hs, h, hdt, hdf,
          datetimeFromIso_error_kind hdt, dateFromIso_error_kind hdf]
  · intro n
    constructor
    · unfold parse_date
      split <;> rfl
    · unfold parse_timestamp
      split <;> rfl

/-- C5 witness: the amended theorem applied to the unparseable input
`"bad "`. -/
theorem C5_witness :
    parse_date (.str "bad ") = .ok (Option.none, Option.some (pyStrip "bad "))
      ∧ parse_timestamp (.str "bad ") = .ok (Option.none, Option.some (pyStrip "bad ")) :=
  ⟨(C5_unparseable_keeps_trimmed_raw "bad " (by decide)).1 rfl,
   (C5_unparseable_keeps_trimmed_raw "bad " (by decide)).2.1 rfl rfl⟩

/-- C6: when the context already carries a document id, the registry
returns that id with the context and store unchanged, so a second call
within the same context returns the same id again and no document row is
ever inserted. -/
theorem C6_registry_idempotent_reentry (classification : Value) (ctx : InsertContext)
    (s : DB) (d : Nat) (h : ctx.document_id = Option.some d) :
    insert_or_get_document classification ctx s = .ok (d, ctx, s)
      ∧ (∀ classification2 : Value,
          insert_or_get_document classification2 ctx s = .ok (d, ctx, s)) := by
  constructor
  · unfold insert_or_get_document
    rw [h]
  · intro c2
    unfold insert_or_get_document
    rw [h]

/-- C6 witness: the theorem applied to a context carrying document id 5,
with the second call made on a different classification payload. -/
theorem C6_witness :
    insert_or_get_document (.dict []) ctxWithDoc DB.empty = .ok (5, ctxWithDoc, DB.empty)
      ∧ insert_or_get_document (.dict [("label", .str "invoice")]) ctxWithDoc DB.empty
          = .ok (5, ctxWithDoc, DB.empty) :=
  ⟨(C6_registry_idempotent_reentry (.dict []) ctxWithDoc DB.empty 5 rfl).1,
   (C6_registry_idempotent_reentry (.dict []) ctxWithDoc DB.empty 5 rfl).2
     (.dict [("label", .str "invoice")])⟩

/-- C7: only documents whose normalized classification is `purchase_order`,
`invoice` or `cold_storage_invoice` may create a bundle — any other
classification is rejected with the pre-call store intact; and when the key
lookup finds neither a PO number nor an invoice number, creation raises the
missing-key error and the transaction rolls back, so no bundle row is
created. -/
theorem C7_bundle_creation_requires_key (document_id : Nat) (org_id : Int) (s : DB)
    (doc : DocumentRow)
    (hd : s.documents.find? (fun d => d.id == document_id) = Option.some doc)
    (horg : doc.org_id = Option.some org_id) :
    ((["purchase_order", "invoice", "cold_storage_invoice"].contains
        (normalize_document_label (.str doc.classification_label)) = false →
      create_bundle_for_document document_id org_id s
        = (.error (.valueError "Only purchase_order or invoice documents can create a new bundle."), s))
  ∧ (["purchase_order", "invoice", "cold_storage_invoice"].contains
        (normalize_document_label (.str doc.classification_label)) = true →
      (build_bundle_key_fields s document_id
        (normalize_document_label (.str doc.classification_label))).1 = Option.none →
      (build_bundle_key_fields s document_id
        (normalize_document_label (.str doc.classification_label))).2.1 = Option.none →
      create_bundle_for_document document_id org_id s
        = (.error (.valueError "Cannot create bundle: missing PO number and Invoice number."), s))) := by
  constructor
  · intro htype
    unfold create_bundle_for_document create_bundle_body get_document_row
    rw [hd]
    dsimp only
    rw [horg]
    have h3 : ¬ normalize_document_label (Value.str doc.classification_label) = "purchase_order"
        ∧ ¬ normalize_document_label (Value.str doc.classification_label) = "invoice"
        ∧ ¬ normalize_document_label (Value.str doc.classification_label) = "cold_storage_invoice" := by
      simpa using htype
    simp [h3.1, h3.2.1, h3.2.2]
  · intro htype hpo hinv
    unfold create_bundle_for_document create_bundle_body get_document_row
    rw [hd]
    dsimp only
    rw [horg]
    have h3 : normalize_document_label (Value.str doc.classification_label) = "purchase_order"
        ∨ normalize_document_label (Value.str doc.classification_label) = "invoice"
        ∨ normalize_document_label (Value.str doc.classification_label) = "cold_storage_invoice" := by
      simpa using htype
    rcases h3 with h3 | h3 | h3 <;>
      simp [h3, h3 ▸ hpo, h3 ▸ hinv, optStrTruthy]

/-- C7 witness: a purchase-order document with no `openai.purchase_orders`
row (hence no PO or invoice number) cannot create a bundle, and the store
is unchanged. -/
theorem C7_witness :
    create_bundle_for_document 40 1 dbPoNoKeys
      = (.error (.valueError "Cannot create bundle: missing PO number and Invoice number."), dbPoNoKeys) :=
  (C7_bundle_creation_requires_key 40 1 dbPoNoKeys (docRowAt 40 1 "purchase_order" [])
    rfl rfl).2 rfl rfl rfl

lemma to_int_total (v : Value) (hd : toIntDefined v = true) : (to_int v).isOk = true := by
  cases v with
  | float f =>
    cases f with
    | finite q => rfl
    | nan => simp [toIntDefined] at hd
    | inf => simp [toIntDefined] at hd
    | negInf => simp [toIntDefined] at hd
  | str s =>
    unfold to_int
    dsimp only
    split
    · rfl
    · cases hf : floatOfStr (pyStrip s) with
      | error e =>
        simp only [floatOfStr_error_kind hf, if_true]
        rfl
      | ok f =>
        cases f with
        | finite q => rfl
        | nan => rfl
        | inf => simp [toIntDefined, hf] at hd
        | negInf => simp [toIntDefined, hf] at hd
  | none => rfl
  | bool b => rfl
  | int n => rfl
  | list xs => rfl
  | dict fs => rfl
  | decimal d => rfl
  | date d => rfl
  | datetime dt => rfl
  | uuid n => rfl

lemma parse_percentage_range_total (v : Value) (hb : v.isBool = false) :
    (parse_percentage_range v).isOk = true := by
  cases v with
  | bool b => simp [Value.isBool] at hb
  | str s =>
    unfold parse_percentage_range
    dsimp only
    split
    · rfl
    · split
      · rfl
      · rename_i m _
        cases hm : to_decimal (.str m) with
        | error e =>
          have := to_decimal_total (.str m) rfl
          rw [hm] at this
          cases this
        | ok d => rfl
      · rename_i m0 m1 _ _
        cases hm0 : to_decimal (.str m0) with
        | error e =>
          have := to_decimal_total (.str m0) rfl
          rw [hm0] at this
          cases this
        | ok d0 =>
          cases hm1 : to_decimal (.str m1) with
          | error e =>
            have := to_decimal_total (.str m1) rfl
            rw [hm1] at this
            cases this
          | ok d1 => rfl
  | none => rfl
  | int n => rfl
  | float f => cases f <;> rfl
  | decimal d => rfl
  | list xs => rfl
  | dict fs => rfl
  | date d => rfl
  | datetime dt => rfl
  | uuid n => rfl

/-- C8 counterexample: the integer normalizer raises `ValueError` for a NaN
float and `OverflowError` for the string `"inf"` (the `except ValueError`
handler does not catch the latter), and the decimal and percentage-range
normalizers raise `InvalidOperation` for a bool (`Decimal(str(True))`),
refuting the claim that no normalizer ever raises on malformed input. -/
theorem C8_counterexample_normalizers_raise :
    to_int (.float PyFloat.nan) = .error (.valueError "cannot convert float NaN to integer")
  ∧ to_int (.str "inf") = .error (.overflowError "cannot convert float infinity to integer")
  ∧ to_decimal (.bool true) = .error (.invalidOperation "invalid literal for Decimal: True")
  ∧ parse_percentage_range (.bool true)
      = .error (.invalidOperation "invalid literal for Decimal: True") :=
  ⟨rfl, rfl, rfl, rfl⟩

/-- C8 (amended): every value normalizer returns a typed value or an
explicit absent marker without raising, except that the decimal and
percentage-range normalizers raise on bool inputs and the integer
normalizer raises on non-finite floats (NaN/infinity, directly or via a
string that parses to an infinite float); the date, timestamp and
identifier normalizers never raise, and the text and JSON-container
normalizers are total functions by construction. -/
theorem C8_normalizers_total_except_nonfinite_and_bool (v : Value) :
    (v.isBool = false → (to_decimal v).isOk = true)
  ∧ (toIntDefined v = true → (to_int v).isOk = true)
  ∧ (parse_date v).isOk = true
  ∧ (parse_timestamp v).isOk = true
  ∧ (v.isBool = false → (parse_percentage_range v).isOk = true)
  ∧ (to_uuid v).isOk = true :=
  ⟨to_decimal_total v, to_int_total v, parse_date_total v, parse_timestamp_total v,
   parse_percentage_range_total v, to_uuid_total v⟩

/-- C8 witness: the amended theorem applied to concrete loosely-typed
inputs of each kind. -/
theorem C8_witness :
    (to_decimal (.str "$12.50")).isOk = true
  ∧ (to_int (.int 7)).isOk = true
  ∧ (parse_date (.str "not-a-date")).isOk = true
  ∧ (parse_timestamp (.str "2024-01-02T03:04:05Z")).isOk = true
  ∧ (parse_percentage_range (.str "3-5%")).isOk = true
  ∧ (to_uuid (.str "zz")).isOk = true :=
  ⟨(C8_normalizers_total_except_nonfinite_and_bool (.str "$12.50")).1 rfl,
   (C8_normalizers_total_except_nonfinite_and_bool (.int 7)).2.1 rfl,
   (C8_normalizers_total_except_nonfinite_and_bool (.str "not-a-date")).2.2.1,
   (C8_normalizers_total_except_nonfinite_and_bool (.str "2024-01-02T03:04:05Z")).2.2.2.1,
   (C8_normalizers_total_except_nonfinite_and_bool (.str "3-5%")).2.2.2.2.1 rfl,
   (C8_normalizers_total_except_nonfinite_and_bool (.str "zz")).2.2.2.2.2⟩

/-- C9 counterexample: a concrete membership-conflict rejection and a
concrete mapper validation failure (cold-storage payload with no invoice
number) are both surfaced as the same `ValueError` exception class — there
is no distinct error category for membership conflicts. -/
theorem C9_counterexample_same_exception_type :
    (add_document_to_bundle 2 21 dbPoConflictB).1
      = .error (.valueError "This document type can only belong to one bundle.")
  ∧ (insert_extraction_result (.dict
      [("classification", .dict [("label", .str "cold_storage_invoice")]),
       ("extraction", .dict [("type", .str "cold_storage_invoice"), ("data", .dict [])])])
      ctxOrgOnly DB.empty).1
      = .error (.valueError "cold_storage_invoice missing InvoiceHeader.InvoiceNumber.")
  ∧ (PyError.valueError "This document type can only belong to one bundle.").kind
      = (PyError.valueError "cold_storage_invoice missing InvoiceHeader.InvoiceNumber.").kind :=
  ⟨rfl, rfl, rfl⟩

/-- C9 (amended): membership-conflict failures are raised with the same
generic `ValueError` exception class that validation failures use, and are
distinguishable from them only by their message text. -/
theorem C9_conflict_same_class_distinct_message :
    ∃ e1 e2 : PyError,
      (add_document_to_bundle 2 21 dbPoConflictB).1 = .error e1
      ∧ (insert_extraction_result (.dict
          [("classification", .dict [("label", .str "cold_storage_invoice")]),
           ("extraction", .dict [("type", .str "cold_storage_invoice"), ("data", .dict [])])])
          ctxOrgOnly DB.empty).1 = .error e2
      ∧ e1.kind = e2.kind ∧ e1.kind = "ValueError" ∧ e1.message ≠ e2.message :=
  ⟨PyError.valueError "This document type can only belong to one bundle.",
   PyError.valueError "cold_storage_invoice missing InvoiceHeader.InvoiceNumber.",
   rfl, rfl, rfl, rfl, by decide⟩

lemma exists_ok_of_isOk {α : Type} {x : Except PyError α} (h : x.isOk = true) :
    ∃ a, x = .ok a := by
  cases x with
  | ok a => exact ⟨a, rfl⟩
  | error e => exact Bool.noConfusion h

/-- C10: for a `fallback` workflow result, `insert_extraction_result`
creates the document row (or reuses the id carried by the context), writes
the status `failed` as the only status write of the run — never passing
through `extracted` or `stored` — inserts no type-specific parent or child
rows, and returns a mapping holding only the `openai.documents` id. -/
theorem C10_fallback_sets_failed_only :
    (∀ (wf : Value) (ctx : InsertContext) (s : DB) (org : Int),
      (wf.get "extraction").orDict.get "type" = .str "fallback" →
      ((wf.get "classification").orDict.get "label").isTruthy = true →
      ctx.document_id = Option.none →
      ctx.org_id = Option.some org →
      (to_decimal ((wf.get "classification").orDict.get "confidence")).isOk = true →
      (insert_extraction_result wf ctx s).1 = .ok [("openai.documents", s.next_id)]
        ∧ (insert_extraction_result wf ctx s).2.status_log
            = s.status_log ++ [(s.next_id, "failed")]
        ∧ (insert_extraction_result wf ctx s).2.entity_rows = s.entity_rows
        ∧ ∃ d ∈ (insert_extraction_result wf ctx s).2.documents,
            d.id = s.next_id ∧ d.status = "failed")
  ∧ (∀ (wf : Value) (ctx : InsertContext) (s : DB) (did : Nat) (doc : DocumentRow),
      (wf.get "extraction").orDict.get "type" = .str "fallback" →
      ((wf.get "classification").orDict.get "label").isTruthy = true →
      ctx.document_id = Option.some did →
      s.documents.find? (fun d => d.id == did) = Option.some doc →
      (insert_extraction_result wf ctx s).1 = .ok [("openai.documents", did)]
        ∧ (insert_extraction_result wf ctx s).2.status_log
            = s.status_log ++ [(did, "failed")]
        ∧ (insert_extraction_result wf ctx s).2.entity_rows = s.entity_rows
        ∧ ∃ d ∈ (insert_extraction_result wf ctx s).2.documents,
            d.id = did ∧ d.status = "failed") := by
  constructor
  · intro wf ctx s org het hlab hdoc horg hconf
    obtain ⟨c, hc2⟩ := exists_ok_of_isOk hconf
    refine ⟨?_, ?_, ?_, ?_⟩ <;>
      (unfold insert_extraction_result insert_extraction_result_body insert_or_get_document
        dispatch_extraction write_document_snapshot
       dsimp only
       rw [het, hlab, hdoc, horg, hc2]
       simp [Value.isTruthy, valueEqStr, set_document_status, ensure_document_status,
         DOCUMENT_STATUS_VALUES])
    exact ⟨_, Or.inr rfl, rfl, rfl⟩
  · intro wf ctx s did doc het hlab hdoc hfind
    have hdid : doc.id = did := by
      have := List.find?_some hfind
      simpa using this
    have hdmem : doc ∈ s.documents := List.mem_of_find?_eq_some hfind
    refine ⟨?_, ?_, ?_, ?_⟩ <;>
      (unfold insert_extraction_result insert_extraction_result_body insert_or_get_document
        dispatch_extraction write_document_snapshot
       dsimp only
       rw [het, hlab, hdoc]
       simp [Value.isTruthy, valueEqStr, set_document_status, ensure_document_status,
         DOCUMENT_STATUS_VALUES])
    refine ⟨doc, hdmem, ?_, ?_⟩ <;> (first | rfl | simp [hdid])

/-- C10 witness: the creation half of the theorem applied to a concrete
fallback workflow result on the empty store. -/
theorem C10_witness :
    (insert_extraction_result wfFallbackRun ctxOrgOnly DB.empty).1 = .ok [("openai.documents", 1)]
  ∧ (insert_extraction_result wfFallbackRun ctxOrgOnly DB.empty).2.status_log = [(1, "failed")]
  ∧ (insert_extraction_result wfFallbackRun ctxOrgOnly DB.empty).2.entity_rows = []
  ∧ ∃ d ∈ (insert_extraction_result wfFallbackRun ctxOrgOnly DB.empty).2.documents,
      d.id = 1 ∧ d.status = "failed" := by
  have h := C10_fallback_sets_failed_only.1 wfFallbackRun ctxOrgOnly DB.empty 1 rfl rfl rfl rfl rfl
  simpa using h
